import Mathlib

/-!
Shallow embedding of the retail-sales ETL core (cleaning, feature
enrichment, dimensional decomposition, idempotent loading) from
`src/etl/transforming.py` and `src/etl/loading.py`, together with
theorems settling the specification claims about it.

Tabular data is modelled as a dataframe whose rows are association
lists from column name to cell value; pandas dtypes are modelled by a
`DType` tag per column.  Floating point amounts are modelled as exact
rationals, calendar values as day ordinals.
-/

namespace RetailETL

/-- Column dtype as pandas reports it: numeric, object (text) or datetime. -/
inductive DType
  | number
  | object
  | datetime
deriving DecidableEq

/-- A single table cell.  `Cell.none` is the missing-value marker
(Python `None` / pandas `NaN` / `NaT`); `Cell.num` a numeric value
(floats modelled as exact rationals); `Cell.date d` a calendar value,
counted in days since 1970-01-01. -/
inductive Cell
  | none
  | num (q : ℚ)
  | str (s : String)
  | date (d : ℤ)
deriving DecidableEq

/-- A dataframe row: association list from column name to cell. -/
abbrev Row := List (String × Cell)

/-- A dataframe: a dtype per named column, plus the rows.  Well-formed
dataframes (`DataFrame.Wf`) have each row's key list equal to the
column list. -/
structure DataFrame where
  dtypes : List (String × DType)
  rows : List Row
deriving DecidableEq

/-- The column names, in order. -/
def DataFrame.colNames (df : DataFrame) : List String :=
  df.dtypes.map Prod.fst

/-- Every row's keys coincide with the declared columns. -/
def DataFrame.Wf (df : DataFrame) : Prop :=
  ∀ r ∈ df.rows, r.map Prod.fst = df.colNames

instance (df : DataFrame) : Decidable df.Wf := by
  unfold DataFrame.Wf; infer_instance

/-- `row[name]` with pandas missing-value defaulting: a key that is
absent reads as missing. -/
def rowGet (r : Row) (k : String) : Cell :=
  (List.lookup k r).getD Cell.none

/-- Helper for `dropDupFirst`: `seen` are the values already emitted. -/
def dropDupFirstAux {α : Type} [DecidableEq α] (seen : List α) :
    List α → List α
  | [] => []
  | a :: l =>
    if a ∈ seen then dropDupFirstAux seen l
    else a :: dropDupFirstAux (a :: seen) l

/-- `Series.unique()` / `DataFrame.drop_duplicates()`: keep the first
occurrence of each value, preserving first-appearance order. -/
def dropDupFirst {α : Type} [DecidableEq α] (l : List α) : List α :=
  dropDupFirstAux [] l

/-! ## Cleaner (`DataTransformation.clean_data`) -/

/-- The critical columns of `clean_data`. -/
def critical_columns : List String :=
  ["Order ID", "Product ID", "Customer ID", "Sales"]

/-- The date columns parsed by `clean_data`. -/
def date_columns : List String :=
  ["Order Date", "Ship Date"]

/-- Whether a cell is the missing-value marker (`isnull`). -/
def isMissing : Cell → Bool
  | Cell.none => true
  | _ => false

/-- `df.isnull().sum().sum()`: total count of missing cells. -/
def missingValues (df : DataFrame) : Nat :=
  (df.rows.map (fun r => (r.filter (fun p => isMissing p.2)).length)).sum

/-- `df.dropna(subset=subset)`: drop every row with a missing value in
one of the `subset` columns; raises `KeyError` when any `subset` column
is absent from the dataframe. -/
def dropnaSubset (subset : List String) (df : DataFrame) :
    Except String DataFrame :=
  if subset.all (fun c => df.colNames.contains c) then
    Except.ok { df with
      rows := df.rows.filter
        (fun r => subset.all (fun c => !isMissing (rowGet r c))) }
  else
    Except.error "KeyError"

/-- Per-cell defaulting of `clean_data`: missing values in non-critical
numeric columns become `0`, in non-critical object columns become
`"Unknown"`; critical columns and datetime columns are left alone. -/
def fillCell (dt : DType) (name : String) (c : Cell) : Cell :=
  if critical_columns.contains name then c
  else
    match dt, c with
    | DType.number, Cell.none => Cell.num 0
    | DType.object, Cell.none => Cell.str "Unknown"
    | _, c => c

/-- The dtype of a named column (`object` for unknown names, which are
outside the well-formed fragment). -/
def dtypeOf (df : DataFrame) (name : String) : DType :=
  (List.lookup name df.dtypes).getD DType.object

/-- The two `fillna` loops of `clean_data`, over numeric and object
non-critical columns. -/
def fillna (df : DataFrame) : DataFrame :=
  { df with
    rows := df.rows.map
      (fun r => r.map (fun p => (p.1, fillCell (dtypeOf df p.1) p.1 p.2))) }

/-- `pd.to_datetime(col, dayfirst=True, errors="coerce")` applied to the
date columns.  The parser itself is the external pandas routine; it is
taken as a parameter `td`, an arbitrary total function on cells (total
because `errors="coerce"` turns unparseable values into `NaT` instead of
raising). -/
def convertDates (td : Cell → Cell) (df : DataFrame) : DataFrame :=
  { dtypes := df.dtypes.map
      (fun p => if date_columns.contains p.1 then (p.1, DType.datetime) else p),
    rows := df.rows.map
      (fun r => r.map
        (fun p => if date_columns.contains p.1 then (p.1, td p.2) else p)) }

/-- `DataTransformation.clean_data`: if any value is missing, drop the
rows missing a critical value (KeyError when a critical column is
absent) and fill non-critical missing values; then drop duplicate rows
if any; then parse the date columns.  Any exception is logged and
re-raised, modelled by `Except.error`. -/
def clean_data (td : Cell → Cell) (df : DataFrame) : Except String DataFrame :=
  match (if 0 < missingValues df then
           (dropnaSubset critical_columns df).map fillna
         else Except.ok df) with
  | Except.error e => Except.error e
  | Except.ok df1 =>
    let df2 :=
      if 0 < df1.rows.length - (dropDupFirst df1.rows).length then
        { df1 with rows := dropDupFirst df1.rows }
      else
        df1
    Except.ok (convertDates td df2)

/-! ## FeatureEnricher (`DataTransformation.transform_data`) -/

/-- Civil calendar from a day ordinal (days since 1970-01-01):
`(year, month, day)`.  Standard era-based conversion; all divisions act
on non-negative operands. -/
def civilFromDays (z : Int) : Int × Int × Int :=
  let z := z + 719468
  let era := (if 0 ≤ z then z else z - 146096) / 146097
  let doe := z - era * 146097
  let yoe := (doe - doe / 1460 + doe / 36524 - doe / 146096) / 365
  let y := yoe + era * 400
  let doy := doe - (365 * yoe + yoe / 4 - yoe / 100)
  let mp := (5 * doy + 2) / 153
  let d := doy - (153 * mp + 2) / 5 + 1
  let m := mp + (if mp < 10 then 3 else -9)
  (y + (if m ≤ 2 then 1 else 0), m, d)

/-- Day ordinal (days since 1970-01-01) from a civil date. -/
def daysFromCivil (y m d : Int) : Int :=
  let y := y - (if m ≤ 2 then 1 else 0)
  let era := (if 0 ≤ y then y else y - 399) / 400
  let yoe := y - era * 400
  let mp := m + (if 2 < m then -3 else 9)
  let doy := (153 * mp + 2) / 5 + d - 1
  let doe := yoe * 365 + yoe / 4 - yoe / 100 + doy
  era * 146097 + doe - 719468

/-- `Series.dt.dayofweek` (Monday = 0 … Sunday = 6); 1970-01-01 was a
Thursday. -/
def dayOfWeekOfDays (z : Int) : Int :=
  (z + 3) % 7

/-- `Series.dt.year` on a datetime cell (`NaN` on missing). -/
def cellYear : Cell → Cell
  | Cell.date z => Cell.num ((civilFromDays z).1 : ℤ)
  | _ => Cell.none

/-- `Series.dt.month` on a datetime cell. -/
def cellMonth : Cell → Cell
  | Cell.date z => Cell.num ((civilFromDays z).2.1 : ℤ)
  | _ => Cell.none

/-- `Series.dt.day` on a datetime cell. -/
def cellDay : Cell → Cell
  | Cell.date z => Cell.num ((civilFromDays z).2.2 : ℤ)
  | _ => Cell.none

/-- `Series.dt.quarter` on a datetime cell. -/
def cellQuarter : Cell → Cell
  | Cell.date z => Cell.num ((((civilFromDays z).2.1 - 1) / 3 + 1 : ℤ))
  | _ => Cell.none

/-- `Series.dt.dayofweek` on a datetime cell. -/
def cellDayOfWeek : Cell → Cell
  | Cell.date z => Cell.num (dayOfWeekOfDays z : ℤ)
  | _ => Cell.none

/-- The weekend flag `lambda x: 1 if x >= 5 else 0`; a missing
day-of-week compares false, giving `0`. -/
def cellWeekend : Cell → Cell
  | Cell.num x => Cell.num (if 5 ≤ x then 1 else 0)
  | _ => Cell.num 0

/-- `(ship - order).dt.days` on two datetime cells. -/
def cellDateDiff (a b : Cell) : Cell :=
  match a, b with
  | Cell.date x, Cell.date y => Cell.num ((x - y : ℤ))
  | _, _ => Cell.none

/-- Numeric multiplication on cells; a missing operand yields `NaN`.
Only numeric-dtype operands arise in the modelled fragment. -/
def cellMul (a b : Cell) : Cell :=
  match a, b with
  | Cell.num x, Cell.num y => Cell.num (x * y)
  | _, _ => Cell.none

/-- Numeric division on cells; a missing operand yields `NaN`. -/
def cellDiv (a b : Cell) : Cell :=
  match a, b with
  | Cell.num x, Cell.num y => Cell.num (x / y)
  | _, _ => Cell.none

/-- The numpy comparison `x > 0`; missing values compare false. -/
def cellGtZero : Cell → Bool
  | Cell.num x => decide (0 < x)
  | _ => false

/-- One row under column assignment: replace the value when the column
already exists, otherwise append the new pair at the end. -/
def setRow (hasCol : Bool) (n : String) (v : Cell) (r : Row) : Row :=
  if hasCol then r.map (fun p => if p.1 == n then (n, v) else p)
  else r ++ [(n, v)]

/-- `df[n] = f(row)`: pandas column assignment, where `f` reads the
current row.  Overwrites the column when present, appends it otherwise. -/
def setColumn (df : DataFrame) (n : String) (dt : DType) (f : Row → Cell) :
    DataFrame :=
  { dtypes :=
      if df.colNames.contains n then
        df.dtypes.map (fun p => if p.1 == n then (n, dt) else p)
      else
        df.dtypes ++ [(n, dt)],
    rows := df.rows.map (fun r => setRow (df.colNames.contains n) n (f r) r) }

/-- The order-date feature block of `transform_data` (year, month, day,
quarter, day of week, weekend flag), applied when an `Order Date`
column exists. -/
def addOrderDateFeatures (df : DataFrame) : DataFrame :=
  if df.colNames.contains "Order Date" then
    let t := setColumn df "Order Year" DType.number
      (fun r => cellYear (rowGet r "Order Date"))
    let t := setColumn t "Order Month" DType.number
      (fun r => cellMonth (rowGet r "Order Date"))
    let t := setColumn t "Order Day" DType.number
      (fun r => cellDay (rowGet r "Order Date"))
    let t := setColumn t "Order Quarter" DType.number
      (fun r => cellQuarter (rowGet r "Order Date"))
    let t := setColumn t "Order Day of Week" DType.number
      (fun r => cellDayOfWeek (rowGet r "Order Date"))
    setColumn t "Order Is Weekend" DType.number
      (fun r => cellWeekend (rowGet r "Order Day of Week"))
  else df

/-- The ship-date feature block of `transform_data` (year, month, day),
applied when a `Ship Date` column exists. -/
def addShipDateFeatures (df : DataFrame) : DataFrame :=
  if df.colNames.contains "Ship Date" then
    let t := setColumn df "Ship Year" DType.number
      (fun r => cellYear (rowGet r "Ship Date"))
    let t := setColumn t "Ship Month" DType.number
      (fun r => cellMonth (rowGet r "Ship Date"))
    setColumn t "Ship Day" DType.number
      (fun r => cellDay (rowGet r "Ship Date"))
  else df

/-- The shipping-duration block of `transform_data`, applied when both
date columns exist. -/
def addShippingDuration (df : DataFrame) : DataFrame :=
  if df.colNames.contains "Order Date" && df.colNames.contains "Ship Date" then
    setColumn df "Shipping Duration" DType.number
      (fun r => cellDateDiff (rowGet r "Ship Date") (rowGet r "Order Date"))
  else df

/-- The profit-default block of `transform_data`: `Profit = Sales * 0.2`
when a `Sales` column exists and no `Profit` column does (0.2 exactly,
as a rational). -/
def addProfitDefault (df : DataFrame) : DataFrame :=
  if df.colNames.contains "Sales" && !(df.colNames.contains "Profit") then
    setColumn df "Profit" DType.number
      (fun r => cellMul (rowGet r "Sales") (Cell.num (1 / 5)))
  else df

/-- The profit-margin block of `transform_data`: `np.where(sales > 0,
profit / sales, 0)` when both columns exist. -/
def addProfitMargin (df : DataFrame) : DataFrame :=
  if df.colNames.contains "Sales" && df.colNames.contains "Profit" then
    setColumn df "Profit Margin" DType.number
      (fun r =>
        if cellGtZero (rowGet r "Sales") then
          cellDiv (rowGet r "Profit") (rowGet r "Sales")
        else Cell.num 0)
  else df

/-- The quantity-default block of `transform_data`. -/
def addDefaultQuantity (df : DataFrame) : DataFrame :=
  if !(df.colNames.contains "Quantity") then
    setColumn df "Quantity" DType.number (fun _ => Cell.num 1)
  else df

/-- The discount-default block of `transform_data`. -/
def addDefaultDiscount (df : DataFrame) : DataFrame :=
  if !(df.colNames.contains "Discount") then
    setColumn df "Discount" DType.number (fun _ => Cell.num 0)
  else df

/-- `DataTransformation.transform_data`: derived date features, default
profit (`Sales * 0.2` when no `Profit` column), guarded profit margin,
and default quantity/discount columns, in source order. -/
def transform_data (df : DataFrame) : DataFrame :=
  addDefaultDiscount (addDefaultQuantity (addProfitMargin (addProfitDefault
    (addShippingDuration (addShipDateFeatures (addOrderDateFeatures df))))))

/-! ## DimensionBuilder and KeyResolver
(`DataTransformation.prepare_dimensional_data`) -/

/-- `col.lower().replace(" ", "_")`: the snake-case renaming used for
the customer dimension and the fact table, modelled character-wise
(the column names are ASCII). -/
def snakeCase (s : String) : String :=
  String.mk (s.data.map (fun ch => if ch = ' ' then '_' else ch.toLower))

/-- `col.lower().replace(" ", "_").replace("-", "_")`: the renaming
used for the product dimension. -/
def snakeCaseDash (s : String) : String :=
  String.mk (s.data.map
    (fun ch => if ch = ' ' ∨ ch = '-' then '_' else ch.toLower))

/-- The customer-dimension projection columns. -/
def customer_dim_cols : List String :=
  ["Customer ID", "Customer Name", "Segment", "Country", "City", "State",
   "Postal Code", "Region"]

/-- The product-dimension projection columns. -/
def product_dim_cols : List String :=
  ["Product ID", "Category", "Sub-Category", "Product Name"]

/-- The fact-table source columns. -/
def fact_columns : List String :=
  ["Row ID", "Order ID", "Customer ID", "Product ID", "Ship Mode", "Sales",
   "Quantity", "Discount", "Profit", "Profit Margin"]

/-- `df[cols]`: column projection, raising `KeyError` when a requested
column is absent. -/
def selectCols (cols : List String) (df : DataFrame) :
    Except String (List Row) :=
  if cols.all (fun c => df.colNames.contains c) then
    Except.ok (df.rows.map (fun r => cols.map (fun c => (c, rowGet r c))))
  else
    Except.error "KeyError"

/-- Rename every key of a row. -/
def renameKeys (f : String → String) (r : Row) : Row :=
  r.map (fun p => (f p.1, p.2))

/-- `Series.dt.date` on a cell: the calendar value of a datetime cell,
`NaT` otherwise. -/
def cellToDate : Cell → Cell
  | Cell.date d => Cell.date d
  | _ => Cell.none

/-- The date columns present in the dataframe, `Order Date` first, as
built by `prepare_dimensional_data`. -/
def presentDateColumns (df : DataFrame) : List String :=
  date_columns.filter (fun c => df.colNames.contains c)

/-- `all_dates`: for each present date column, the unique column values
converted to calendar values, concatenated in column order. -/
def all_dates (df : DataFrame) : List Cell :=
  (presentDateColumns df).flatMap
    (fun c => (dropDupFirst (df.rows.map (fun r => rowGet r c))).map cellToDate)

/-- Stated from the amended claim, for comparison with `all_dates`: the
raw first-appearance scan stream of calendar values — every row's
order-date value in row order, then every row's ship-date value in row
order, for the date columns present.  Deduplicating this stream keeping
first occurrences yields the dimension's dates in order of first
appearance. -/
def appearanceStream (df : DataFrame) : List Cell :=
  (presentDateColumns df).flatMap
    (fun c => (df.rows.map (fun r => rowGet r c)).map cellToDate)

/-- One row of the date dimension: the calendar value, its recomputed
attributes, and the 1-based sequential surrogate key. -/
def mkDateRow (d : Cell) (i : Nat) : Row :=
  [("date", d), ("day", cellDay d), ("month", cellMonth d),
   ("year", cellYear d), ("quarter", cellQuarter d),
   ("day_of_week", cellDayOfWeek d),
   ("is_weekend", cellWeekend (cellDayOfWeek d)),
   ("date_id", Cell.num ((i : ℤ) + 1))]

/-- The date dimension: deduplicated `all_dates` in first-appearance
order, each with attributes and a sequential `date_id` starting at 1. -/
def dim_date_rows (df : DataFrame) : List Row :=
  (dropDupFirst (all_dates df)).enum.map (fun p => mkDateRow p.2 p.1)

/-- `dict(zip(dim_date["date"], dim_date["date_id"]))`. -/
def date_map (dimDate : List Row) : List (Cell × Cell) :=
  dimDate.map (fun r => (rowGet r "date", rowGet r "date_id"))

/-- `Series.map(mapping)`: a key absent from the mapping yields a
missing value, never an error. -/
def resolveDateKey (m : List (Cell × Cell)) (d : Cell) : Cell :=
  (List.lookup d m).getD Cell.none

/-- The fact projection before key resolution: available fact columns,
renamed to snake case. -/
def fact_base_row (avail : List String) (r : Row) : Row :=
  avail.map (fun c => (snakeCase c, rowGet r c))

/-- Date-key resolution on one fact row: append `order_date_id` /
`ship_date_id` looked up from the source row's calendar values, for
whichever date columns exist. -/
def addDateKeys (hasOrder hasShip : Bool) (m : List (Cell × Cell))
    (src : Row) (fr : Row) : Row :=
  let fr :=
    if hasOrder then
      fr ++ [("order_date_id", resolveDateKey m (cellToDate (rowGet src "Order Date")))]
    else fr
  if hasShip then
    fr ++ [("ship_date_id", resolveDateKey m (cellToDate (rowGet src "Ship Date")))]
  else fr

/-- The output of `prepare_dimensional_data`: three optional dimension
tables and the fact table. -/
structure DimensionalData where
  dim_customer : Option (List Row)
  dim_product : Option (List Row)
  dim_date : Option (List Row)
  fact_sales : List Row
deriving DecidableEq

/-- The customer dimension: projection onto the customer columns,
deduplicated on the full tuple, keys renamed; absent when the marker
columns `Customer ID` / `Customer Name` are missing; `KeyError` when
the markers are present but another projected column is missing. -/
def dim_customer_opt (df : DataFrame) : Except String (Option (List Row)) :=
  if (["Customer ID", "Customer Name"] : List String).all
      (fun c => df.colNames.contains c) then
    (selectCols customer_dim_cols df).map
      (fun rs => some ((dropDupFirst rs).map (renameKeys snakeCase)))
  else Except.ok Option.none

/-- The product dimension, analogous to the customer dimension. -/
def dim_product_opt (df : DataFrame) : Except String (Option (List Row)) :=
  if (["Product ID", "Product Name"] : List String).all
      (fun c => df.colNames.contains c) then
    (selectCols product_dim_cols df).map
      (fun rs => some ((dropDupFirst rs).map (renameKeys snakeCaseDash)))
  else Except.ok Option.none

/-- The date dimension, present when at least one date column is. -/
def dim_date_opt (df : DataFrame) : Option (List Row) :=
  if presentDateColumns df ≠ [] then some (dim_date_rows df)
  else Option.none

/-- The fact table: available fact columns renamed to snake case, with
date surrogate keys resolved against the date dimension when it is
present. -/
def fact_sales_rows (df : DataFrame) : List Row :=
  match dim_date_opt df with
  | some dd =>
    (List.zip (df.rows.map (fact_base_row
        (fact_columns.filter (fun c => df.colNames.contains c)))) df.rows).map
      (fun p => addDateKeys (df.colNames.contains "Order Date")
        (df.colNames.contains "Ship Date") (date_map dd) p.2 p.1)
  | Option.none =>
    df.rows.map (fact_base_row
      (fact_columns.filter (fun c => df.colNames.contains c)))

/-- `DataTransformation.prepare_dimensional_data`: project and
deduplicate the customer and product dimensions (absent when their
marker columns are missing), build the date dimension from the distinct
calendar values of the present date columns, project the fact table and
resolve its date surrogate keys. -/
def prepare_dimensional_data (df : DataFrame) : Except String DimensionalData :=
  match dim_customer_opt df with
  | Except.error e => Except.error e
  | Except.ok dimCustomer =>
    match dim_product_opt df with
    | Except.error e => Except.error e
    | Except.ok dimProduct =>
      Except.ok
        { dim_customer := dimCustomer, dim_product := dimProduct,
          dim_date := dim_date_opt df, fact_sales := fact_sales_rows df }

/-! ## Persister (`DataLoading`) -/

/-- Python truthiness of a cell value, as in `if row_id:`.
`Cell.none` models Python `None` (falsy); `0` and `""` are falsy. -/
def cellTruthy : Cell → Bool
  | Cell.none => false
  | Cell.num x => decide (x ≠ 0)
  | Cell.str s => decide (s ≠ "")
  | Cell.date _ => true

/-- The persisted relational store: one list of rows per table. -/
structure DB where
  dim_date : List Row
  dim_customer : List Row
  dim_product : List Row
  fact_sales : List Row
deriving DecidableEq

/-- Whether a table holds a row whose `key` column equals that of `r`
(the `ON CONFLICT (key) DO NOTHING` conflict test). -/
def dimRowExists (table : List Row) (key : String) (r : Row) : Bool :=
  table.any (fun t => rowGet t key == rowGet r key)

/-- Which of a run's table transactions fail (an exception raised while
executing or committing that table's statements), plus whether table
creation succeeded.  These are the environment's failure injections;
the code reacts to them with per-table rollback. -/
structure LoadOutcome where
  createOk : Bool
  dateFails : Bool
  customerFails : Bool
  productFails : Bool
  factFails : Bool

/-- `DataLoading.load_dimension_table`: insert-or-ignore each record by
the natural key inside one transaction; on failure the transaction is
rolled back (table unchanged) and `0` returned.  `insert_count` is
incremented for every executed statement, conflict or not, as in the
source. -/
def load_dimension_table (fails : Bool) (records : List Row) (key : String)
    (table : List Row) : List Row × Nat :=
  if fails then (table, 0)
  else
    records.foldl
      (fun acc r =>
        (if dimRowExists acc.1 key r then acc.1 else acc.1 ++ [r], acc.2 + 1))
      (table, 0)

/-- The record loop of `DataLoading.load_fact_table`: for each record,
when `row_id` is truthy and already present (`db.query` sees both the
persisted table and rows staged earlier in the loop, via autoflush) the
record is skipped; otherwise it is staged with `db.add` and counted. -/
def stage_fact_records (table : List Row) (records : List Row) :
    List Row × Nat :=
  records.foldl
    (fun acc record =>
      let rid := rowGet record "row_id"
      if cellTruthy rid && dimRowExists acc.1 "row_id" record then acc
      else (acc.1 ++ [record], acc.2 + 1))
    (table, 0)

/-- The non-null `row_id` values of a list of fact rows.  `row_id` is
the primary key of `fact_sales` (`models/schema.py`); a row staged with
a null `row_id` receives a fresh database-generated key (integer
primary keys autoincrement), which never collides. -/
def factPkValues (rows : List Row) : List Cell :=
  (rows.map (fun r => rowGet r "row_id")).filter (fun c => c ≠ Cell.none)

/-- `DataLoading.load_fact_table`: stage the records, then commit.  A
staged row whose non-null `row_id` duplicates a persisted or staged one
violates the `fact_sales` primary key; the resulting IntegrityError
(raised at flush or at `db.commit()`) is caught, the whole batch is
rolled back and `0` returned.  An injected failure behaves the same
way. -/
def load_fact_table (fails : Bool) (table : List Row) (records : List Row) :
    List Row × Nat :=
  if fails then (table, 0)
  else
    let staged := stage_fact_records table records
    if (factPkValues staged.1).Nodup then staged else (table, 0)

/-- `DataLoading.run_loading`: create tables, load the three dimension
tables (skipping absent ones), then the fact table; each table's
failure is absorbed by its own load; returns `false` only when table
creation fails. -/
def run_loading (o : LoadOutcome) (data : DimensionalData) (db : DB) :
    DB × Bool :=
  if !o.createOk then (db, false)
  else
    let dimDate :=
      match data.dim_date with
      | some recs => (load_dimension_table o.dateFails recs "date_id" db.dim_date).1
      | Option.none => db.dim_date
    let dimCustomer :=
      match data.dim_customer with
      | some recs =>
        (load_dimension_table o.customerFails recs "customer_id" db.dim_customer).1
      | Option.none => db.dim_customer
    let dimProduct :=
      match data.dim_product with
      | some recs =>
        (load_dimension_table o.productFails recs "product_id" db.dim_product).1
      | Option.none => db.dim_product
    let fact := (load_fact_table o.factFails db.fact_sales data.fact_sales).1
    ({ dim_date := dimDate, dim_customer := dimCustomer,
       dim_product := dimProduct, fact_sales := fact }, true)

/-! ## Concrete instances used by witnesses and counterexamples -/

/-- A fact record whose `row_id` is the falsy value `0`. -/
def factRecZero : Row :=
  [("row_id", Cell.num 0), ("order_id", Cell.str "O1")]

/-- A fact record with the truthy `row_id` 42. -/
def factRec42 : Row :=
  [("row_id", Cell.num 42), ("order_id", Cell.str "O1")]

/-- A fact record with the truthy `row_id` 5, absent from the store. -/
def factRecNew5 : Row :=
  [("row_id", Cell.num 5), ("order_id", Cell.str "O2")]

/-- A run in which only the customer-dimension transaction fails. -/
def loadOutcomeCustomerFail : LoadOutcome :=
  { createOk := true, dateFails := false, customerFails := true,
    productFails := false, factFails := false }

/-- An initially empty store. -/
def emptyDB : DB :=
  { dim_date := [], dim_customer := [], dim_product := [], fact_sales := [] }

/-- A small dimensional payload with customer, product and fact data. -/
def sampleDimData : DimensionalData :=
  { dim_customer := some [[("customer_id", Cell.str "C1")]],
    dim_product := some [[("product_id", Cell.str "P1")]],
    dim_date := Option.none,
    fact_sales := [factRec42] }

/-- A two-row numeric dataframe with only a `Sales` column
(`100` and `0`), mirroring the margin example of the specification. -/
def salesOnlyDf : DataFrame :=
  { dtypes := [("Sales", DType.number)],
    rows := [[("Sales", Cell.num 100)], [("Sales", Cell.num 0)]] }

/-- A dataframe with three of the four critical columns (no `Sales`)
and one missing non-critical value. -/
def cleanFailDf : DataFrame :=
  { dtypes := [("Order ID", DType.object), ("Product ID", DType.object),
               ("Customer ID", DType.object), ("Region", DType.object)],
    rows := [[("Order ID", Cell.str "O1"), ("Product ID", Cell.str "P1"),
              ("Customer ID", Cell.str "C1"), ("Region", Cell.none)]] }

/-- A dataframe with all critical columns, one exact duplicate pair, a
missing non-critical numeric value, and one row missing a critical
value. -/
def cleanOkDf : DataFrame :=
  { dtypes := [("Order ID", DType.object), ("Product ID", DType.object),
               ("Customer ID", DType.object), ("Sales", DType.number),
               ("Quantity", DType.number)],
    rows :=
      [[("Order ID", Cell.str "O1"), ("Product ID", Cell.str "P1"),
        ("Customer ID", Cell.str "C1"), ("Sales", Cell.num 100),
        ("Quantity", Cell.none)],
       [("Order ID", Cell.str "O1"), ("Product ID", Cell.str "P1"),
        ("Customer ID", Cell.str "C1"), ("Sales", Cell.num 100),
        ("Quantity", Cell.none)],
       [("Order ID", Cell.str "O2"), ("Product ID", Cell.str "P2"),
        ("Customer ID", Cell.none), ("Sales", Cell.num 50),
        ("Quantity", Cell.num 2)]] }

/-- The Cleaner contract, stated from the specification: drop rows
missing a critical value, fill non-critical missing numerics with `0`
and non-critical missing text with `"Unknown"`. -/
def filledFrame (df : DataFrame) : DataFrame :=
  { dtypes := df.dtypes,
    rows := (df.rows.filter
        (fun r => critical_columns.all (fun c => !isMissing (rowGet r c)))).map
      (fun r => r.map (fun p => (p.1, fillCell (dtypeOf df p.1) p.1 p.2))) }

/-- The Cleaner contract continued: remove exact duplicate rows,
keeping first occurrences. -/
def cleanSpecFrame (df : DataFrame) : DataFrame :=
  { dtypes := df.dtypes, rows := dropDupFirst (filledFrame df).rows }

/-- A batch whose order dates appear in descending order:
2024-01-06 first, 2024-01-05 second. -/
def dateSwapDf : DataFrame :=
  { dtypes := [("Order Date", DType.datetime)],
    rows := [[("Order Date", Cell.date (daysFromCivil 2024 1 6))],
             [("Order Date", Cell.date (daysFromCivil 2024 1 5))]] }

/-- A batch whose order dates appear in ascending order, as in the
specification example. -/
def dateExDf : DataFrame :=
  { dtypes := [("Order Date", DType.datetime)],
    rows := [[("Order Date", Cell.date (daysFromCivil 2024 1 5))],
             [("Order Date", Cell.date (daysFromCivil 2024 1 6))]] }

/-- The dimensional output of `dateExDf`. -/
def dateExDD : DimensionalData :=
  { dim_customer := Option.none, dim_product := Option.none,
    dim_date := some (dim_date_rows dateExDf),
    fact_sales := fact_sales_rows dateExDf }

/-- The dimensional output of `salesOnlyDf` (no date columns). -/
def salesOnlyDD : DimensionalData :=
  { dim_customer := Option.none, dim_product := Option.none,
    dim_date := dim_date_opt salesOnlyDf,
    fact_sales := fact_sales_rows salesOnlyDf }

/-- One customer id appearing twice with two different cities. -/
def custDupDf : DataFrame :=
  { dtypes := [("Customer ID", DType.object), ("Customer Name", DType.object),
               ("Segment", DType.object), ("Country", DType.object),
               ("City", DType.object), ("State", DType.object),
               ("Postal Code", DType.object), ("Region", DType.object)],
    rows :=
      [[("Customer ID", Cell.str "C1"), ("Customer Name", Cell.str "Ann"),
        ("Segment", Cell.str "Consumer"), ("Country", Cell.str "US"),
        ("City", Cell.str "Austin"), ("State", Cell.str "TX"),
        ("Postal Code", Cell.str "73301"), ("Region", Cell.str "Central")],
       [("Customer ID", Cell.str "C1"), ("Customer Name", Cell.str "Ann"),
        ("Segment", Cell.str "Consumer"), ("Country", Cell.str "US"),
        ("City", Cell.str "Dallas"), ("State", Cell.str "TX"),
        ("Postal Code", Cell.str "75201"), ("Region", Cell.str "Central")]] }

/-- The dimensional output of `custDupDf`. -/
def custDupDD : DimensionalData :=
  { dim_customer := some ((dropDupFirst (custDupDf.rows.map
      (fun r => customer_dim_cols.map (fun c => (c, rowGet r c))))).map
        (renameKeys snakeCase)),
    dim_product := Option.none, dim_date := Option.none,
    fact_sales := fact_sales_rows custDupDf }

/-! ## General lemmas about the embedding helpers -/

theorem contains_iff_mem {α : Type} [BEq α] [LawfulBEq α] (l : List α) (a : α) :
    l.contains a = true ↔ a ∈ l :=
  List.elem_iff

theorem lookup_eq_none_of_not_mem_keys (r : Row) (k : String)
    (h : k ∉ r.map Prod.fst) : List.lookup k r = Option.none := by
  induction r with
  | nil => rfl
  | cons p t ih =>
    obtain ⟨a, c⟩ := p
    simp only [List.map_cons, List.mem_cons, not_or] at h
    have hne : (k == a) = false := beq_eq_false_iff_ne.mpr h.1
    simp [List.lookup, hne, ih h.2]

theorem rowGet_append_self (r : Row) (n : String) (v : Cell)
    (h : n ∉ r.map Prod.fst) : rowGet (r ++ [(n, v)]) n = v := by
  induction r with
  | nil => simp [rowGet, List.lookup]
  | cons p t ih =>
    obtain ⟨a, c⟩ := p
    simp only [List.map_cons, List.mem_cons, not_or] at h
    have hne : (n == a) = false := beq_eq_false_iff_ne.mpr h.1
    simpa [rowGet, List.lookup, hne] using ih h.2

theorem rowGet_append_other (r : Row) (n k : String) (v : Cell)
    (hk : k ≠ n) : rowGet (r ++ [(n, v)]) k = rowGet r k := by
  induction r with
  | nil =>
    have hne : (k == n) = false := beq_eq_false_iff_ne.mpr hk
    simp [rowGet, List.lookup, hne]
  | cons p t ih =>
    obtain ⟨a, c⟩ := p
    by_cases hkp : k = a
    · have : (k == a) = true := beq_iff_eq.mpr hkp
      simp [rowGet, List.lookup, this]
    · have hne : (k == a) = false := beq_eq_false_iff_ne.mpr hkp
      simpa [rowGet, List.lookup, hne] using ih

theorem rowGet_cons_self (a : String) (c : Cell) (t : Row) :
    rowGet ((a, c) :: t) a = c := by
  simp [rowGet, List.lookup]

theorem rowGet_cons_ne (a : String) (c : Cell) (t : Row) (k : String)
    (hk : k ≠ a) : rowGet ((a, c) :: t) k = rowGet t k := by
  have hne : (k == a) = false := beq_eq_false_iff_ne.mpr hk
  simp [rowGet, List.lookup, hne]

theorem rowGet_replace_self (r : Row) (n : String) (v : Cell)
    (h : n ∈ r.map Prod.fst) :
    rowGet (r.map (fun p => if p.1 == n then (n, v) else p)) n = v := by
  induction r with
  | nil => simp at h
  | cons p t ih =>
    obtain ⟨a, c⟩ := p
    by_cases hp : a = n
    · subst hp
      simp [List.map_cons, rowGet_cons_self]
    · have hne : (a == n) = false := beq_eq_false_iff_ne.mpr hp
      simp only [List.map_cons, List.mem_cons] at h
      rcases h with h | h
      · exact absurd h.symm hp
      · rw [List.map_cons]
        simp only [hne, Bool.false_eq_true, if_false]
        rw [rowGet_cons_ne a c _ n (fun hx => hp hx.symm)]
        exact ih h

theorem rowGet_replace_other (r : Row) (n k : String) (v : Cell)
    (hk : k ≠ n) :
    rowGet (r.map (fun p => if p.1 == n then (n, v) else p)) k = rowGet r k := by
  induction r with
  | nil => simp [rowGet]
  | cons p t ih =>
    obtain ⟨a, c⟩ := p
    rw [List.map_cons]
    by_cases hp : a = n
    · subst hp
      simp only [beq_self_eq_true, if_true]
      rw [rowGet_cons_ne a v _ k hk, rowGet_cons_ne a c _ k hk]
      exact ih
    · have hne : (a == n) = false := beq_eq_false_iff_ne.mpr hp
      simp only [hne, Bool.false_eq_true, if_false]
      by_cases hkp : k = a
      · subst hkp
        rw [rowGet_cons_self, rowGet_cons_self]
      · rw [rowGet_cons_ne a c _ k hkp, rowGet_cons_ne a c _ k hkp]
        exact ih

theorem keys_replace (r : Row) (n : String) (v : Cell) :
    (r.map (fun p => if p.1 == n then (n, v) else p)).map Prod.fst =
      r.map Prod.fst := by
  rw [List.map_map]
  apply List.map_congr_left
  intro p _
  obtain ⟨a, c⟩ := p
  by_cases hp : a = n
  · subst hp
    simp [Function.comp]
  · have hne : (a == n) = false := beq_eq_false_iff_ne.mpr hp
    simp [Function.comp, hne]

theorem rowGet_setRow_self (b : Bool) (n : String) (v : Cell) (r : Row)
    (h : n ∈ r.map Prod.fst ↔ b = true) :
    rowGet (setRow b n v r) n = v := by
  cases b with
  | false =>
    have hnm : n ∉ r.map Prod.fst := fun hm => by simpa using h.mp hm
    simpa [setRow] using rowGet_append_self r n v hnm
  | true => simpa [setRow] using rowGet_replace_self r n v (h.mpr rfl)

theorem rowGet_setRow_other (b : Bool) (n k : String) (v : Cell) (r : Row)
    (hk : k ≠ n) : rowGet (setRow b n v r) k = rowGet r k := by
  cases b with
  | false => simpa [setRow] using rowGet_append_other r n k v hk
  | true => simpa [setRow] using rowGet_replace_other r n k v hk

theorem keys_setRow (b : Bool) (n : String) (v : Cell) (r : Row) :
    (setRow b n v r).map Prod.fst =
      if b then r.map Prod.fst else r.map Prod.fst ++ [n] := by
  cases b with
  | false => simp [setRow]
  | true => simpa [setRow] using keys_replace r n v

theorem keys_replaceD (l : List (String × DType)) (n : String) (dt : DType) :
    (l.map (fun p => if p.1 == n then (n, dt) else p)).map Prod.fst =
      l.map Prod.fst := by
  rw [List.map_map]
  apply List.map_congr_left
  intro p _
  obtain ⟨a, c⟩ := p
  by_cases hp : a = n
  · subst hp
    simp [Function.comp]
  · have hne : (a == n) = false := beq_eq_false_iff_ne.mpr hp
    simp [Function.comp, hne]

theorem colNames_setColumn (df : DataFrame) (n : String) (dt : DType)
    (f : Row → Cell) :
    (setColumn df n dt f).colNames =
      if df.colNames.contains n then df.colNames else df.colNames ++ [n] := by
  by_cases h : df.colNames.contains n = true
  · rw [if_pos h]
    have hd : (setColumn df n dt f).dtypes =
        df.dtypes.map (fun p => if p.1 == n then (n, dt) else p) := by
      simp only [setColumn, h, if_true]
    show ((setColumn df n dt f).dtypes).map Prod.fst = df.colNames
    rw [hd, keys_replaceD]
    rfl
  · rw [if_neg h]
    have hb : df.colNames.contains n = false := by simpa using h
    have hd : (setColumn df n dt f).dtypes = df.dtypes ++ [(n, dt)] := by
      simp only [setColumn, hb, Bool.false_eq_true, if_false]
    show ((setColumn df n dt f).dtypes).map Prod.fst = df.colNames ++ [n]
    rw [hd, List.map_append]
    rfl

theorem contains_setColumn_of_ne (df : DataFrame) (n : String) (dt : DType)
    (f : Row → Cell) (k : String) (hk : k ≠ n) :
    (setColumn df n dt f).colNames.contains k = df.colNames.contains k := by
  rw [colNames_setColumn]
  by_cases h : df.colNames.contains n = true
  · rw [if_pos h]
  · rw [if_neg h]
    rw [Bool.eq_iff_iff, contains_iff_mem, contains_iff_mem]
    simp [List.mem_append, hk]

theorem wf_setColumn (df : DataFrame) (n : String) (dt : DType)
    (f : Row → Cell) (h : df.Wf) : (setColumn df n dt f).Wf := by
  intro r hr
  simp only [setColumn, List.mem_map] at hr
  obtain ⟨r0, hr0, rfl⟩ := hr
  rw [keys_setRow, colNames_setColumn, h r0 hr0]

theorem mem_rows_setColumn (df : DataFrame) (n : String) (dt : DType)
    (f : Row → Cell) (r : Row) (h : r ∈ (setColumn df n dt f).rows) :
    ∃ r0 ∈ df.rows, r = setRow (df.colNames.contains n) n (f r0) r0 := by
  simp only [setColumn, List.mem_map] at h
  obtain ⟨r0, hr0, rfl⟩ := h
  exact ⟨r0, hr0, rfl⟩

theorem mem_dropDupFirstAux {α : Type} [DecidableEq α] (l : List α) :
    ∀ (seen : List α) (a : α),
      a ∈ dropDupFirstAux seen l ↔ a ∈ l ∧ a ∉ seen := by
  induction l with
  | nil => intro seen a; simp [dropDupFirstAux]
  | cons b l ih =>
    intro seen a
    by_cases hb : b ∈ seen
    · simp only [dropDupFirstAux, if_pos hb, ih, List.mem_cons]
      constructor
      · exact fun h => ⟨Or.inr h.1, h.2⟩
      · rintro ⟨hab | hal, hs⟩
        · exact absurd (hab ▸ hb) hs
        · exact ⟨hal, hs⟩
    · simp only [dropDupFirstAux, if_neg hb, List.mem_cons, ih]
      by_cases hab : a = b
      · subst hab; simp [hb]
      · simp [hab]

theorem mem_dropDupFirst {α : Type} [DecidableEq α] (l : List α) (a : α) :
    a ∈ dropDupFirst l ↔ a ∈ l := by
  simp [dropDupFirst, mem_dropDupFirstAux]

theorem nodup_dropDupFirstAux {α : Type} [DecidableEq α] (l : List α) :
    ∀ seen : List α, (dropDupFirstAux seen l).Nodup := by
  induction l with
  | nil => intro seen; simp [dropDupFirstAux]
  | cons b l ih =>
    intro seen
    by_cases hb : b ∈ seen
    · simpa [dropDupFirstAux, if_pos hb] using ih seen
    · simp only [dropDupFirstAux, if_neg hb]
      refine List.nodup_cons.mpr ⟨?_, ih (b :: seen)⟩
      intro hmem
      exact ((mem_dropDupFirstAux l (b :: seen) b).mp hmem).2 (List.mem_cons_self b seen)

theorem nodup_dropDupFirst {α : Type} [DecidableEq α] (l : List α) :
    (dropDupFirst l).Nodup :=
  nodup_dropDupFirstAux l []

theorem dropDupFirstAux_sublist {α : Type} [DecidableEq α] (l : List α) :
    ∀ seen : List α, List.Sublist (dropDupFirstAux seen l) l := by
  induction l with
  | nil => intro seen; simp [dropDupFirstAux]
  | cons b l ih =>
    intro seen
    by_cases hb : b ∈ seen
    · simpa [dropDupFirstAux, if_pos hb] using (ih seen).cons b
    · simpa [dropDupFirstAux, if_neg hb] using (ih (b :: seen)).cons₂ b

theorem dropDupFirst_sublist {α : Type} [DecidableEq α] (l : List α) :
    List.Sublist (dropDupFirst l) l :=
  dropDupFirstAux_sublist l []

theorem count_dropDupFirst {α : Type} [DecidableEq α] (l : List α) (a : α)
    (h : a ∈ l) : (dropDupFirst l).count a = 1 :=
  List.count_eq_one_of_mem (nodup_dropDupFirst l) ((mem_dropDupFirst l a).mpr h)

theorem dropDupFirst_eq_self_of_length {α : Type} [DecidableEq α]
    (l : List α) (h : (dropDupFirst l).length = l.length) :
    dropDupFirst l = l :=
  (dropDupFirst_sublist l).eq_of_length h


/-! ## Lemmas about `setColumn` chains -/

theorem contains_setColumn_self (df : DataFrame) (n : String) (dt : DType)
    (f : Row → Cell) : (setColumn df n dt f).colNames.contains n = true := by
  rw [colNames_setColumn]
  by_cases h : df.colNames.contains n = true
  · rwa [if_pos h]
  · rw [if_neg h, contains_iff_mem]
    simp

theorem rows_setColumn_spec (df : DataFrame) (n : String) (dt : DType)
    (f : Row → Cell) (hwf : df.Wf) (r : Row)
    (hr : r ∈ (setColumn df n dt f).rows) :
    ∃ r0 ∈ df.rows, rowGet r n = f r0 ∧
      ∀ k, k ≠ n → rowGet r k = rowGet r0 k := by
  obtain ⟨r0, hr0, rfl⟩ := mem_rows_setColumn df n dt f r hr
  refine ⟨r0, hr0, ?_, ?_⟩
  · apply rowGet_setRow_self
    rw [hwf r0 hr0]
    exact (contains_iff_mem df.colNames n).symm
  · intro k hk
    exact rowGet_setRow_other _ _ _ _ _ hk

theorem wf_condSet (df : DataFrame) (c : Bool) (n : String) (dt : DType)
    (f : Row → Cell) (hwf : df.Wf) :
    (if c then setColumn df n dt f else df).Wf := by
  cases c
  · simpa using hwf
  · simpa using wf_setColumn df n dt f hwf

theorem contains_condSet (df : DataFrame) (c : Bool) (n : String) (dt : DType)
    (f : Row → Cell) (k : String) (hk : k ≠ n) :
    (if c then setColumn df n dt f else df).colNames.contains k =
      df.colNames.contains k := by
  cases c
  · simp
  · simpa using contains_setColumn_of_ne df n dt f k hk

theorem rows_condSet (df : DataFrame) (c : Bool) (n : String) (dt : DType)
    (f : Row → Cell) (hwf : df.Wf) (r : Row)
    (hr : r ∈ (if c then setColumn df n dt f else df).rows) :
    ∃ r0 ∈ df.rows, ∀ k, k ≠ n → rowGet r k = rowGet r0 k := by
  cases c
  · simp only [Bool.false_eq_true, if_false] at hr
    exact ⟨r, hr, fun _ _ => rfl⟩
  · simp only [if_true] at hr
    obtain ⟨r0, hr0, _, hp⟩ := rows_setColumn_spec df n dt f hwf r hr
    exact ⟨r0, hr0, hp⟩

/-! ## Lemmas about the blocks of `transform_data` -/

theorem wf_addOrderDateFeatures (df : DataFrame) (hwf : df.Wf) :
    (addOrderDateFeatures df).Wf := by
  unfold addOrderDateFeatures
  by_cases hc : df.colNames.contains "Order Date" = true
  · rw [if_pos hc]
    exact wf_setColumn _ _ _ _ (wf_setColumn _ _ _ _ (wf_setColumn _ _ _ _
      (wf_setColumn _ _ _ _ (wf_setColumn _ _ _ _ (wf_setColumn _ _ _ _ hwf)))))
  · rwa [if_neg hc]

theorem contains_addOrderDateFeatures (df : DataFrame) (k : String)
    (h1 : k ≠ "Order Year") (h2 : k ≠ "Order Month") (h3 : k ≠ "Order Day")
    (h4 : k ≠ "Order Quarter") (h5 : k ≠ "Order Day of Week")
    (h6 : k ≠ "Order Is Weekend") :
    (addOrderDateFeatures df).colNames.contains k = df.colNames.contains k := by
  unfold addOrderDateFeatures
  by_cases hc : df.colNames.contains "Order Date" = true
  · rw [if_pos hc, contains_setColumn_of_ne _ _ _ _ _ h6,
      contains_setColumn_of_ne _ _ _ _ _ h5,
      contains_setColumn_of_ne _ _ _ _ _ h4,
      contains_setColumn_of_ne _ _ _ _ _ h3,
      contains_setColumn_of_ne _ _ _ _ _ h2,
      contains_setColumn_of_ne _ _ _ _ _ h1]
  · rw [if_neg hc]

theorem rows_addOrderDateFeatures (df : DataFrame) (hwf : df.Wf) (r : Row)
    (hr : r ∈ (addOrderDateFeatures df).rows) :
    ∃ r0 ∈ df.rows, ∀ k, k ≠ "Order Year" → k ≠ "Order Month" →
      k ≠ "Order Day" → k ≠ "Order Quarter" → k ≠ "Order Day of Week" →
      k ≠ "Order Is Weekend" → rowGet r k = rowGet r0 k := by
  unfold addOrderDateFeatures at hr
  by_cases hc : df.colNames.contains "Order Date" = true
  · rw [if_pos hc] at hr
    have w1 := wf_setColumn _ "Order Year" DType.number
      (fun r => cellYear (rowGet r "Order Date")) hwf
    have w2 := wf_setColumn _ "Order Month" DType.number
      (fun r => cellMonth (rowGet r "Order Date")) w1
    have w3 := wf_setColumn _ "Order Day" DType.number
      (fun r => cellDay (rowGet r "Order Date")) w2
    have w4 := wf_setColumn _ "Order Quarter" DType.number
      (fun r => cellQuarter (rowGet r "Order Date")) w3
    have w5 := wf_setColumn _ "Order Day of Week" DType.number
      (fun r => cellDayOfWeek (rowGet r "Order Date")) w4
    obtain ⟨r5, hr5, _, p6⟩ := rows_setColumn_spec _ _ _ _ w5 r hr
    obtain ⟨r4, hr4, _, p5⟩ := rows_setColumn_spec _ _ _ _ w4 r5 hr5
    obtain ⟨r3, hr3, _, p4⟩ := rows_setColumn_spec _ _ _ _ w3 r4 hr4
    obtain ⟨r2, hr2, _, p3⟩ := rows_setColumn_spec _ _ _ _ w2 r3 hr3
    obtain ⟨r1, hr1, _, p2⟩ := rows_setColumn_spec _ _ _ _ w1 r2 hr2
    obtain ⟨r0, hr0, _, p1⟩ := rows_setColumn_spec _ _ _ _ hwf r1 hr1
    refine ⟨r0, hr0, ?_⟩
    intro k k1 k2 k3 k4 k5 k6
    rw [p6 k k6, p5 k k5, p4 k k4, p3 k k3, p2 k k2, p1 k k1]
  · rw [if_neg hc] at hr
    exact ⟨r, hr, fun k _ _ _ _ _ _ => rfl⟩

theorem wf_addShipDateFeatures (df : DataFrame) (hwf : df.Wf) :
    (addShipDateFeatures df).Wf := by
  unfold addShipDateFeatures
  by_cases hc : df.colNames.contains "Ship Date" = true
  · rw [if_pos hc]
    exact wf_setColumn _ _ _ _ (wf_setColumn _ _ _ _ (wf_setColumn _ _ _ _ hwf))
  · rwa [if_neg hc]

theorem contains_addShipDateFeatures (df : DataFrame) (k : String)
    (h1 : k ≠ "Ship Year") (h2 : k ≠ "Ship Month") (h3 : k ≠ "Ship Day") :
    (addShipDateFeatures df).colNames.contains k = df.colNames.contains k := by
  unfold addShipDateFeatures
  by_cases hc : df.colNames.contains "Ship Date" = true
  · rw [if_pos hc, contains_setColumn_of_ne _ _ _ _ _ h3,
      contains_setColumn_of_ne _ _ _ _ _ h2,
      contains_setColumn_of_ne _ _ _ _ _ h1]
  · rw [if_neg hc]

theorem rows_addShipDateFeatures (df : DataFrame) (hwf : df.Wf) (r : Row)
    (hr : r ∈ (addShipDateFeatures df).rows) :
    ∃ r0 ∈ df.rows, ∀ k, k ≠ "Ship Year" → k ≠ "Ship Month" →
      k ≠ "Ship Day" → rowGet r k = rowGet r0 k := by
  unfold addShipDateFeatures at hr
  by_cases hc : df.colNames.contains "Ship Date" = true
  · rw [if_pos hc] at hr
    have w1 := wf_setColumn _ "Ship Year" DType.number
      (fun r => cellYear (rowGet r "Ship Date")) hwf
    have w2 := wf_setColumn _ "Ship Month" DType.number
      (fun r => cellMonth (rowGet r "Ship Date")) w1
    obtain ⟨r2, hr2, _, p3⟩ := rows_setColumn_spec _ _ _ _ w2 r hr
    obtain ⟨r1, hr1, _, p2⟩ := rows_setColumn_spec _ _ _ _ w1 r2 hr2
    obtain ⟨r0, hr0, _, p1⟩ := rows_setColumn_spec _ _ _ _ hwf r1 hr1
    refine ⟨r0, hr0, ?_⟩
    intro k k1 k2 k3
    rw [p3 k k3, p2 k k2, p1 k k1]
  · rw [if_neg hc] at hr
    exact ⟨r, hr, fun k _ _ _ => rfl⟩

theorem wf_addShippingDuration (df : DataFrame) (hwf : df.Wf) :
    (addShippingDuration df).Wf := by
  unfold addShippingDuration
  exact wf_condSet _ _ _ _ _ hwf

theorem contains_addShippingDuration (df : DataFrame) (k : String)
    (hk : k ≠ "Shipping Duration") :
    (addShippingDuration df).colNames.contains k = df.colNames.contains k := by
  unfold addShippingDuration
  exact contains_condSet _ _ _ _ _ _ hk

theorem rows_addShippingDuration (df : DataFrame) (hwf : df.Wf) (r : Row)
    (hr : r ∈ (addShippingDuration df).rows) :
    ∃ r0 ∈ df.rows, ∀ k, k ≠ "Shipping Duration" →
      rowGet r k = rowGet r0 k := by
  unfold addShippingDuration at hr
  exact rows_condSet _ _ _ _ _ hwf r hr

theorem wf_addProfitDefault (df : DataFrame) (hwf : df.Wf) :
    (addProfitDefault df).Wf := by
  unfold addProfitDefault
  exact wf_condSet _ _ _ _ _ hwf

theorem contains_addProfitDefault (df : DataFrame) (k : String)
    (hk : k ≠ "Profit") :
    (addProfitDefault df).colNames.contains k = df.colNames.contains k := by
  unfold addProfitDefault
  exact contains_condSet _ _ _ _ _ _ hk

theorem rows_addProfitDefault (df : DataFrame) (hwf : df.Wf) (r : Row)
    (hr : r ∈ (addProfitDefault df).rows) :
    ∃ r0 ∈ df.rows, ∀ k, k ≠ "Profit" → rowGet r k = rowGet r0 k := by
  unfold addProfitDefault at hr
  exact rows_condSet _ _ _ _ _ hwf r hr

theorem contains_profit_addProfitDefault (df : DataFrame)
    (hs : df.colNames.contains "Sales" = true) :
    (addProfitDefault df).colNames.contains "Profit" = true := by
  unfold addProfitDefault
  by_cases hp : df.colNames.contains "Profit" = true
  · have hcond : (df.colNames.contains "Sales" &&
        !df.colNames.contains "Profit") = false := by
      rw [hs, hp]
      rfl
    rw [hcond]
    simpa using hp
  · have hpf : df.colNames.contains "Profit" = false := by simpa using hp
    have hcond : (df.colNames.contains "Sales" &&
        !df.colNames.contains "Profit") = true := by
      rw [hs, hpf]
      rfl
    rw [hcond, if_pos rfl]
    exact contains_setColumn_self _ _ _ _

theorem wf_addProfitMargin (df : DataFrame) (hwf : df.Wf) :
    (addProfitMargin df).Wf := by
  unfold addProfitMargin
  exact wf_condSet _ _ _ _ _ hwf

theorem contains_addProfitMargin (df : DataFrame) (k : String)
    (hk : k ≠ "Profit Margin") :
    (addProfitMargin df).colNames.contains k = df.colNames.contains k := by
  unfold addProfitMargin
  exact contains_condSet _ _ _ _ _ _ hk

theorem rows_addProfitMargin (df : DataFrame) (hwf : df.Wf) (r : Row)
    (hr : r ∈ (addProfitMargin df).rows) :
    ∃ r0 ∈ df.rows, ∀ k, k ≠ "Profit Margin" → rowGet r k = rowGet r0 k := by
  unfold addProfitMargin at hr
  exact rows_condSet _ _ _ _ _ hwf r hr

theorem addProfitMargin_fires (df : DataFrame)
    (hs : df.colNames.contains "Sales" = true)
    (hp : df.colNames.contains "Profit" = true) :
    addProfitMargin df =
      setColumn df "Profit Margin" DType.number
        (fun r =>
          if cellGtZero (rowGet r "Sales") then
            cellDiv (rowGet r "Profit") (rowGet r "Sales")
          else Cell.num 0) := by
  unfold addProfitMargin
  rw [hs, hp]
  rfl

theorem wf_addDefaultQuantity (df : DataFrame) (hwf : df.Wf) :
    (addDefaultQuantity df).Wf := by
  unfold addDefaultQuantity
  exact wf_condSet _ _ _ _ _ hwf

theorem contains_addDefaultQuantity (df : DataFrame) (k : String)
    (hk : k ≠ "Quantity") :
    (addDefaultQuantity df).colNames.contains k = df.colNames.contains k := by
  unfold addDefaultQuantity
  exact contains_condSet _ _ _ _ _ _ hk

theorem rows_addDefaultQuantity (df : DataFrame) (hwf : df.Wf) (r : Row)
    (hr : r ∈ (addDefaultQuantity df).rows) :
    ∃ r0 ∈ df.rows, ∀ k, k ≠ "Quantity" → rowGet r k = rowGet r0 k := by
  unfold addDefaultQuantity at hr
  exact rows_condSet _ _ _ _ _ hwf r hr

theorem wf_addDefaultDiscount (df : DataFrame) (hwf : df.Wf) :
    (addDefaultDiscount df).Wf := by
  unfold addDefaultDiscount
  exact wf_condSet _ _ _ _ _ hwf

theorem rows_addDefaultDiscount (df : DataFrame) (hwf : df.Wf) (r : Row)
    (hr : r ∈ (addDefaultDiscount df).rows) :
    ∃ r0 ∈ df.rows, ∀ k, k ≠ "Discount" → rowGet r k = rowGet r0 k := by
  unfold addDefaultDiscount at hr
  exact rows_condSet _ _ _ _ _ hwf r hr


/-! ## Claims about the Persister -/

theorem fact_foldl_skip (facts : List Row) :
    ∀ records : List Row,
      (∀ r ∈ records, cellTruthy (rowGet r "row_id") = true ∧
        dimRowExists facts "row_id" r = true) →
      List.foldl
        (fun acc record =>
          let rid := rowGet record "row_id"
          if cellTruthy rid && dimRowExists acc.1 "row_id" record then acc
          else (acc.1 ++ [record], acc.2 + 1))
        (facts, 0) records = (facts, 0) := by
  intro records
  induction records with
  | nil => intro _; rfl
  | cons r rs ih =>
    intro h
    have h1 := h r (List.mem_cons_self r rs)
    have h2 : ∀ x ∈ rs, cellTruthy (rowGet x "row_id") = true ∧
        dimRowExists facts "row_id" x = true :=
      fun x hx => h x (List.mem_cons_of_mem r hx)
    rw [List.foldl_cons]
    have hstep :
        (let rid := rowGet r "row_id"
         if cellTruthy rid && dimRowExists (facts, 0).1 "row_id" r
         then ((facts, 0) : List Row × Nat)
         else ((facts, 0).1 ++ [r], (facts, 0).2 + 1)) = ((facts, 0) : List Row × Nat) := by
      simp [h1.1, h1.2]
    rw [hstep]
    exact ih h2

theorem load_fact_table_eq (table records : List Row) :
    load_fact_table false table records =
      (if (factPkValues (stage_fact_records table records).1).Nodup then
        stage_fact_records table records else (table, 0)) := rfl

theorem cellTruthy_ne_none (c : Cell) (h : cellTruthy c = true) :
    c ≠ Cell.none := by
  intro he
  rw [he] at h
  exact Bool.false_ne_true h

theorem factPkValues_append (l1 l2 : List Row) :
    factPkValues (l1 ++ l2) = factPkValues l1 ++ factPkValues l2 := by
  unfold factPkValues
  rw [List.map_append, List.filter_append]

theorem factPkValues_singleton_of_ne_none (r : Row)
    (h : rowGet r "row_id" ≠ Cell.none) :
    factPkValues [r] = [rowGet r "row_id"] := by
  unfold factPkValues
  simp [h]

theorem factPkValues_singleton_of_none (r : Row)
    (h : rowGet r "row_id" = Cell.none) :
    factPkValues [r] = [] := by
  unfold factPkValues
  simp [h]

theorem not_mem_factPkValues (facts : List Row) (r : Row)
    (h : dimRowExists facts "row_id" r = false) :
    rowGet r "row_id" ∉ factPkValues facts := by
  intro hmem
  unfold factPkValues at hmem
  rw [List.mem_filter] at hmem
  obtain ⟨hmem, -⟩ := hmem
  rw [List.mem_map] at hmem
  obtain ⟨t, ht, hval⟩ := hmem
  unfold dimRowExists at h
  rw [List.any_eq_false] at h
  have hne := h t ht
  rw [hval] at hne
  exact hne (beq_self_eq_true _)

theorem mem_factPkValues (facts : List Row) (r : Row)
    (h : dimRowExists facts "row_id" r = true)
    (hne : rowGet r "row_id" ≠ Cell.none) :
    rowGet r "row_id" ∈ factPkValues facts := by
  unfold dimRowExists at h
  rw [List.any_eq_true] at h
  obtain ⟨t, ht, hbeq⟩ := h
  have hval : rowGet t "row_id" = rowGet r "row_id" := beq_iff_eq.mp hbeq
  unfold factPkValues
  rw [List.mem_filter]
  refine ⟨?_, by simp [hne]⟩
  rw [List.mem_map]
  exact ⟨t, ht, hval⟩

theorem stage_single_falsy (facts : List Row) (r : Row)
    (h : cellTruthy (rowGet r "row_id") = false) :
    stage_fact_records facts [r] = (facts ++ [r], 1) := by
  simp [stage_fact_records, h]

theorem stage_single_truthy (facts : List Row) (r : Row)
    (h : cellTruthy (rowGet r "row_id") = true) :
    stage_fact_records facts [r] =
      if dimRowExists facts "row_id" r then (facts, 0)
      else (facts ++ [r], 1) := by
  by_cases he : dimRowExists facts "row_id" r = true
  · simp [stage_fact_records, h, he]
  · have he2 : dimRowExists facts "row_id" r = false := by simpa using he
    simp [stage_fact_records, h, he2]

theorem commit_ok_insert (facts : List Row) (r : Row)
    (hpk : (factPkValues facts).Nodup)
    (hnn : rowGet r "row_id" ≠ Cell.none)
    (hnm : rowGet r "row_id" ∉ factPkValues facts) :
    (factPkValues (facts ++ [r])).Nodup := by
  rw [factPkValues_append, factPkValues_singleton_of_ne_none r hnn,
    List.nodup_append]
  refine ⟨hpk, List.nodup_singleton _, ?_⟩
  intro x hx hx2
  rw [List.mem_singleton] at hx2
  subst hx2
  exact hnm hx

theorem commit_fail_dup (facts : List Row) (r : Row)
    (hnn : rowGet r "row_id" ≠ Cell.none)
    (hm : rowGet r "row_id" ∈ factPkValues facts) :
    ¬ (factPkValues (facts ++ [r])).Nodup := by
  rw [factPkValues_append, factPkValues_singleton_of_ne_none r hnn,
    List.nodup_append]
  rintro ⟨-, -, hdisj⟩
  exact hdisj hm (List.mem_singleton_self _)

/-- C2 (amended): on a primary-key-consistent fact table, a candidate
row with a truthy `row_id` is skipped when that `row_id` already exists
and inserted when absent; re-running on a batch whose (truthy)
`row_id`s were all loaded previously inserts 0 new rows.  A row with a
falsy `row_id` bypasses the check and is staged unconditionally; when
that violates the `row_id` primary key at commit, the whole fact batch
rolls back and 0 is returned — so even rows of the same batch whose
`row_id`s were absent are not inserted. -/
theorem load_fact_table_truthy_dedup :
    (∀ (facts : List Row) (r : Row), (factPkValues facts).Nodup →
      cellTruthy (rowGet r "row_id") = true →
      load_fact_table false facts [r] =
        if dimRowExists facts "row_id" r then (facts, 0)
        else (facts ++ [r], 1))
    ∧ (∀ (facts records : List Row),
        (∀ r ∈ records, cellTruthy (rowGet r "row_id") = true ∧
          dimRowExists facts "row_id" r = true) →
        load_fact_table false facts records = (facts, 0))
    ∧ ∀ (facts records : List Row),
        ¬ (factPkValues (stage_fact_records facts records).1).Nodup →
        load_fact_table false facts records = (facts, 0) := by
  refine ⟨?_, ?_, ?_⟩
  · intro facts r hpk ht
    rw [load_fact_table_eq, stage_single_truthy facts r ht]
    by_cases he : dimRowExists facts "row_id" r = true
    · rw [if_pos he]
      split <;> rfl
    · have he2 : dimRowExists facts "row_id" r = false := by simpa using he
      rw [if_neg he]
      exact if_pos (commit_ok_insert facts r hpk (cellTruthy_ne_none _ ht)
        (not_mem_factPkValues facts r he2))
  · intro facts records h
    have hstage : stage_fact_records facts records = (facts, 0) :=
      fact_foldl_skip facts records h
    rw [load_fact_table_eq, hstage]
    split <;> rfl
  · intro facts records h
    rw [load_fact_table_eq, if_neg h]

theorem load_fact_table_truthy_dedup_witness :
    load_fact_table false [factRec42] [factRec42] = ([factRec42], 0) :=
  load_fact_table_truthy_dedup.2.1 [factRec42] [factRec42] (by decide)

/-- C2 counterexample: with `row_id = 0` already persisted, re-running
a batch that contains that falsy `row_id` plus a genuinely new row
(`row_id = 5`, absent from the store) inserts nothing: the falsy row
bypasses the dedup check, is staged, and its duplicate primary key
makes the commit fail, rolling back the whole batch — so the new row
with an absent `row_id` is not inserted, contradicting the claim's
"for every row whose row_id is absent it inserts it". -/
theorem load_fact_table_poisoned_batch :
    dimRowExists [factRecZero] "row_id" factRecNew5 = false ∧
      load_fact_table false [factRecZero] [factRecZero, factRecNew5] =
        ([factRecZero], 0) :=
  ⟨by decide, by decide⟩

/-- C10: the existence check of `load_fact_table` runs only for records
with a truthy `row_id`: a record whose `row_id` is absent, `None` or
`0` (falsy) bypasses the check entirely and is always staged for
insertion, while a truthy `row_id` is staged exactly when not already
present.  Consequently a null `row_id` is persisted with a
database-generated key, and a falsy non-null duplicate (such as `0`
already persisted) is staged anyway and then rolls the whole batch back
at commit, so the skip-if-present dedup guarantee holds only for
records with a truthy `row_id`. -/
theorem load_fact_table_truthiness_guard :
    (∀ (facts : List Row) (r : Row), cellTruthy (rowGet r "row_id") = false →
      stage_fact_records facts [r] = (facts ++ [r], 1))
    ∧ (∀ (facts : List Row) (r : Row), cellTruthy (rowGet r "row_id") = true →
      stage_fact_records facts [r] =
        if dimRowExists facts "row_id" r then (facts, 0)
        else (facts ++ [r], 1))
    ∧ (∀ (facts : List Row) (r : Row), rowGet r "row_id" = Cell.none →
      (factPkValues facts).Nodup →
      load_fact_table false facts [r] = (facts ++ [r], 1))
    ∧ ∀ (facts : List Row) (r : Row),
        cellTruthy (rowGet r "row_id") = false →
        rowGet r "row_id" ≠ Cell.none →
        dimRowExists facts "row_id" r = true →
        load_fact_table false facts [r] = (facts, 0) := by
  refine ⟨stage_single_falsy, stage_single_truthy, ?_, ?_⟩
  · intro facts r hnone hpk
    have hf : cellTruthy (rowGet r "row_id") = false := by
      rw [hnone]
      rfl
    rw [load_fact_table_eq, stage_single_falsy facts r hf]
    have hok : (factPkValues (facts ++ [r])).Nodup := by
      rw [factPkValues_append, factPkValues_singleton_of_none r hnone,
        List.append_nil]
      exact hpk
    exact if_pos hok
  · intro facts r hf hnn he
    rw [load_fact_table_eq, stage_single_falsy facts r hf]
    exact if_neg (commit_fail_dup facts r hnn (mem_factPkValues facts r he hnn))

theorem load_fact_table_truthiness_guard_witness :
    stage_fact_records [factRecZero] [factRecZero] =
        ([factRecZero, factRecZero], 1) ∧
      load_fact_table false [factRecZero] [factRecZero] = ([factRecZero], 0) :=
  ⟨load_fact_table_truthiness_guard.1 [factRecZero] factRecZero (by decide),
    load_fact_table_truthiness_guard.2.2.2 [factRecZero] factRecZero
      (by decide) (by decide) (by decide)⟩

/-- C3: when table creation succeeds, `run_loading` reports success no
matter which table transactions fail; a failing table is rolled back to
its previous contents, and every other table's result is exactly its own
independent load, unaffected by the failure. -/
theorem run_loading_partial_success (o : LoadOutcome) (data : DimensionalData)
    (db : DB) (h : o.createOk = true) :
    (run_loading o data db).2 = true
    ∧ (o.dateFails = true → (run_loading o data db).1.dim_date = db.dim_date)
    ∧ (o.customerFails = true →
        (run_loading o data db).1.dim_customer = db.dim_customer)
    ∧ (o.productFails = true →
        (run_loading o data db).1.dim_product = db.dim_product)
    ∧ (o.factFails = true →
        (run_loading o data db).1.fact_sales = db.fact_sales)
    ∧ (run_loading o data db).1.dim_date =
        (match data.dim_date with
         | some recs => (load_dimension_table o.dateFails recs "date_id" db.dim_date).1
         | Option.none => db.dim_date)
    ∧ (run_loading o data db).1.dim_customer =
        (match data.dim_customer with
         | some recs =>
           (load_dimension_table o.customerFails recs "customer_id" db.dim_customer).1
         | Option.none => db.dim_customer)
    ∧ (run_loading o data db).1.dim_product =
        (match data.dim_product with
         | some recs =>
           (load_dimension_table o.productFails recs "product_id" db.dim_product).1
         | Option.none => db.dim_product)
    ∧ (run_loading o data db).1.fact_sales =
        (load_fact_table o.factFails db.fact_sales data.fact_sales).1 := by
  simp only [run_loading, h, Bool.not_true, Bool.false_eq_true, if_false]
  refine ⟨by trivial, ?_, ?_, ?_, ?_, by trivial, by trivial, by trivial,
    by trivial⟩
  · intro hf
    cases data.dim_date <;> simp [load_dimension_table, hf]
  · intro hf
    cases data.dim_customer <;> simp [load_dimension_table, hf]
  · intro hf
    cases data.dim_product <;> simp [load_dimension_table, hf]
  · intro hf
    simp [load_fact_table, hf]

theorem run_loading_partial_success_witness :
    (run_loading loadOutcomeCustomerFail sampleDimData emptyDB).2 = true ∧
      (run_loading loadOutcomeCustomerFail sampleDimData emptyDB).1.dim_customer
        = [] :=
  ⟨(run_loading_partial_success loadOutcomeCustomerFail sampleDimData emptyDB
      rfl).1,
    (run_loading_partial_success loadOutcomeCustomerFail sampleDimData emptyDB
      rfl).2.2.1 rfl⟩

/-! ## Claims about the FeatureEnricher -/

theorem addProfitDefault_fires (df : DataFrame)
    (hs : df.colNames.contains "Sales" = true)
    (hp : df.colNames.contains "Profit" = false) :
    addProfitDefault df = setColumn df "Profit" DType.number
      (fun r => cellMul (rowGet r "Sales") (Cell.num (1 / 5))) := by
  unfold addProfitDefault
  rw [hs, hp]
  rfl

theorem addDefaultQuantity_fires (df : DataFrame)
    (hq : df.colNames.contains "Quantity" = false) :
    addDefaultQuantity df =
      setColumn df "Quantity" DType.number (fun _ => Cell.num 1) := by
  unfold addDefaultQuantity
  rw [hq]
  rfl

theorem addDefaultDiscount_fires (df : DataFrame)
    (hd : df.colNames.contains "Discount" = false) :
    addDefaultDiscount df =
      setColumn df "Discount" DType.number (fun _ => Cell.num 0) := by
  unfold addDefaultDiscount
  rw [hd]
  rfl

/-- C6: in `transform_data`, whenever a `Sales` column exists the
profit margin of every enriched record is defined (the computation is a
total function, never raising on division by zero) and equals
`profit / sales` when `sales > 0` and `0` otherwise — in particular `0`
whenever `sales == 0` or sales is missing. -/
theorem transform_data_profit_margin (df : DataFrame) (hwf : df.Wf)
    (hs : df.colNames.contains "Sales" = true) :
    ∀ r ∈ (transform_data df).rows,
      rowGet r "Profit Margin" =
        if cellGtZero (rowGet r "Sales") then
          cellDiv (rowGet r "Profit") (rowGet r "Sales")
        else Cell.num 0 := by
  intro r hr
  unfold transform_data at hr
  have w1 := wf_addOrderDateFeatures df hwf
  have w2 := wf_addShipDateFeatures _ w1
  have w3 := wf_addShippingDuration _ w2
  have w4 := wf_addProfitDefault _ w3
  have w5 := wf_addProfitMargin _ w4
  have w6 := wf_addDefaultQuantity _ w5
  have cs1 : (addOrderDateFeatures df).colNames.contains "Sales" = true := by
    rw [contains_addOrderDateFeatures df "Sales" (by decide) (by decide)
      (by decide) (by decide) (by decide) (by decide)]
    exact hs
  have cs2 : (addShipDateFeatures
      (addOrderDateFeatures df)).colNames.contains "Sales" = true := by
    rw [contains_addShipDateFeatures _ "Sales" (by decide) (by decide)
      (by decide)]
    exact cs1
  have cs3 : (addShippingDuration (addShipDateFeatures
      (addOrderDateFeatures df))).colNames.contains "Sales" = true := by
    rw [contains_addShippingDuration _ "Sales" (by decide)]
    exact cs2
  have cs4 : (addProfitDefault (addShippingDuration (addShipDateFeatures
      (addOrderDateFeatures df)))).colNames.contains "Sales" = true := by
    rw [contains_addProfitDefault _ "Sales" (by decide)]
    exact cs3
  have cp4 := contains_profit_addProfitDefault _ cs3
  have hm := addProfitMargin_fires _ cs4 cp4
  obtain ⟨r6, hr6, p7⟩ := rows_addDefaultDiscount _ w6 r hr
  obtain ⟨r5, hr5, p6⟩ := rows_addDefaultQuantity _ w5 r6 hr6
  rw [hm] at hr5
  obtain ⟨r4, hr4, hval, p5⟩ := rows_setColumn_spec _ _ _ _ w4 r5 hr5
  have eM : rowGet r "Profit Margin" = rowGet r5 "Profit Margin" := by
    rw [p7 _ (by decide), p6 _ (by decide)]
  have eS : rowGet r "Sales" = rowGet r4 "Sales" := by
    rw [p7 _ (by decide), p6 _ (by decide), p5 _ (by decide)]
  have eP : rowGet r "Profit" = rowGet r4 "Profit" := by
    rw [p7 _ (by decide), p6 _ (by decide), p5 _ (by decide)]
  rw [eM, hval, eS, eP]

theorem transform_data_profit_margin_witness :
    salesOnlyDf.Wf ∧
      ∀ r ∈ (transform_data salesOnlyDf).rows,
        rowGet r "Profit Margin" =
          if cellGtZero (rowGet r "Sales") then
            cellDiv (rowGet r "Profit") (rowGet r "Sales")
          else Cell.num 0 :=
  ⟨by decide, transform_data_profit_margin salesOnlyDf (by decide) (by decide)⟩

/-- C8: in `transform_data`, when `Sales` exists and `Profit` is absent
every record gets `profit = sales * 0.2`; when `Quantity` is absent
every record gets `quantity = 1`; when `Discount` is absent every record
gets `discount = 0.0`. -/
theorem transform_data_defaults (df : DataFrame) (hwf : df.Wf) :
    (df.colNames.contains "Sales" = true →
      df.colNames.contains "Profit" = false →
      ∀ r ∈ (transform_data df).rows,
        rowGet r "Profit" = cellMul (rowGet r "Sales") (Cell.num (1 / 5)))
    ∧ (df.colNames.contains "Quantity" = false →
      ∀ r ∈ (transform_data df).rows, rowGet r "Quantity" = Cell.num 1)
    ∧ (df.colNames.contains "Discount" = false →
      ∀ r ∈ (transform_data df).rows, rowGet r "Discount" = Cell.num 0) := by
  have w1 := wf_addOrderDateFeatures df hwf
  have w2 := wf_addShipDateFeatures _ w1
  have w3 := wf_addShippingDuration _ w2
  have w4 := wf_addProfitDefault _ w3
  have w5 := wf_addProfitMargin _ w4
  have w6 := wf_addDefaultQuantity _ w5
  refine ⟨?_, ?_, ?_⟩
  · intro hs hp r hr
    unfold transform_data at hr
    have cs3 : (addShippingDuration (addShipDateFeatures
        (addOrderDateFeatures df))).colNames.contains "Sales" = true := by
      rw [contains_addShippingDuration _ "Sales" (by decide),
        contains_addShipDateFeatures _ "Sales" (by decide) (by decide)
          (by decide),
        contains_addOrderDateFeatures df "Sales" (by decide) (by decide)
          (by decide) (by decide) (by decide) (by decide)]
      exact hs
    have cp3 : (addShippingDuration (addShipDateFeatures
        (addOrderDateFeatures df))).colNames.contains "Profit" = false := by
      rw [contains_addShippingDuration _ "Profit" (by decide),
        contains_addShipDateFeatures _ "Profit" (by decide) (by decide)
          (by decide),
        contains_addOrderDateFeatures df "Profit" (by decide) (by decide)
          (by decide) (by decide) (by decide) (by decide)]
      exact hp
    have hd4 := addProfitDefault_fires _ cs3 cp3
    have cp4 : (setColumn (addShippingDuration (addShipDateFeatures
        (addOrderDateFeatures df))) "Profit" DType.number
        (fun r => cellMul (rowGet r "Sales")
          (Cell.num (1 / 5)))).colNames.contains "Profit" = true :=
      contains_setColumn_self _ _ _ _
    have cs4 : (setColumn (addShippingDuration (addShipDateFeatures
        (addOrderDateFeatures df))) "Profit" DType.number
        (fun r => cellMul (rowGet r "Sales")
          (Cell.num (1 / 5)))).colNames.contains "Sales" = true := by
      rw [contains_setColumn_of_ne _ _ _ _ _ (by decide)]
      exact cs3
    have hm := addProfitMargin_fires _ cs4 cp4
    obtain ⟨r6, hr6, p7⟩ := rows_addDefaultDiscount _ w6 r hr
    obtain ⟨r5, hr5, p6⟩ := rows_addDefaultQuantity _ w5 r6 hr6
    rw [hd4, hm] at hr5
    have w4x : (setColumn (addShippingDuration (addShipDateFeatures
        (addOrderDateFeatures df))) "Profit" DType.number
        (fun r => cellMul (rowGet r "Sales") (Cell.num (1 / 5)))).Wf :=
      wf_setColumn _ _ _ _ w3
    obtain ⟨r4, hr4, _, p5⟩ := rows_setColumn_spec _ _ _ _ w4x r5 hr5
    obtain ⟨r3, hr3, hval, p4⟩ := rows_setColumn_spec _ _ _ _ w3 r4 hr4
    have eP : rowGet r "Profit" = rowGet r4 "Profit" := by
      rw [p7 _ (by decide), p6 _ (by decide), p5 _ (by decide)]
    have eS : rowGet r "Sales" = rowGet r3 "Sales" := by
      rw [p7 _ (by decide), p6 _ (by decide), p5 _ (by decide),
        p4 _ (by decide)]
    rw [eP, hval, eS]
  · intro hq r hr
    unfold transform_data at hr
    have cq5 : (addProfitMargin (addProfitDefault (addShippingDuration
        (addShipDateFeatures
          (addOrderDateFeatures df))))).colNames.contains "Quantity"
        = false := by
      rw [contains_addProfitMargin _ "Quantity" (by decide),
        contains_addProfitDefault _ "Quantity" (by decide),
        contains_addShippingDuration _ "Quantity" (by decide),
        contains_addShipDateFeatures _ "Quantity" (by decide) (by decide)
          (by decide),
        contains_addOrderDateFeatures df "Quantity" (by decide) (by decide)
          (by decide) (by decide) (by decide) (by decide)]
      exact hq
    have hq6 := addDefaultQuantity_fires _ cq5
    rw [hq6] at hr
    have w6x : (setColumn (addProfitMargin (addProfitDefault
        (addShippingDuration (addShipDateFeatures (addOrderDateFeatures df)))))
        "Quantity" DType.number (fun _ => Cell.num 1)).Wf :=
      wf_setColumn _ _ _ _ w5
    obtain ⟨r6, hr6, p7⟩ := rows_addDefaultDiscount _ w6x r hr
    obtain ⟨r5, hr5, hval, p6⟩ := rows_setColumn_spec _ _ _ _ w5 r6 hr6
    rw [p7 _ (by decide), hval]
  · intro hd r hr
    unfold transform_data at hr
    have cd6 : (addDefaultQuantity (addProfitMargin (addProfitDefault
        (addShippingDuration (addShipDateFeatures
          (addOrderDateFeatures df)))))).colNames.contains "Discount"
        = false := by
      rw [contains_addDefaultQuantity _ "Discount" (by decide),
        contains_addProfitMargin _ "Discount" (by decide),
        contains_addProfitDefault _ "Discount" (by decide),
        contains_addShippingDuration _ "Discount" (by decide),
        contains_addShipDateFeatures _ "Discount" (by decide) (by decide)
          (by decide),
        contains_addOrderDateFeatures df "Discount" (by decide) (by decide)
          (by decide) (by decide) (by decide) (by decide)]
      exact hd
    have hd7 := addDefaultDiscount_fires _ cd6
    rw [hd7] at hr
    obtain ⟨r6, hr6, hval, _⟩ := rows_setColumn_spec _ _ _ _ w6 r hr
    rw [hval]

theorem transform_data_defaults_witness :
    (∀ r ∈ (transform_data salesOnlyDf).rows,
      rowGet r "Profit" = cellMul (rowGet r "Sales") (Cell.num (1 / 5)))
    ∧ ∀ r ∈ (transform_data salesOnlyDf).rows,
        rowGet r "Quantity" = Cell.num 1 :=
  ⟨(transform_data_defaults salesOnlyDf (by decide)).1 (by decide) (by decide),
    (transform_data_defaults salesOnlyDf (by decide)).2.1 (by decide)⟩

/-! ## Claims about the Cleaner -/

theorem lookup_some_of_mem_keys (r : Row) (k : String)
    (h : k ∈ r.map Prod.fst) :
    ∃ v, List.lookup k r = some v ∧ (k, v) ∈ r := by
  induction r with
  | nil => simp at h
  | cons p t ih =>
    obtain ⟨a, c⟩ := p
    by_cases hk : k = a
    · subst hk
      exact ⟨c, by simp [List.lookup], by simp⟩
    · have hne : (k == a) = false := beq_eq_false_iff_ne.mpr hk
      simp only [List.map_cons, List.mem_cons] at h
      rcases h with h | h
      · exact absurd h hk
      · obtain ⟨v, hv, hvm⟩ := ih h
        exact ⟨v, by simp [List.lookup, hne, hv], List.mem_cons_of_mem _ hvm⟩

theorem no_missing_rows (df : DataFrame) (h : missingValues df = 0) :
    ∀ r ∈ df.rows, ∀ p ∈ r, p.2 ≠ Cell.none := by
  intro r hr p hp he
  have hall := List.sum_eq_zero_iff.mp h
  have hz := hall _ (List.mem_map_of_mem _ hr)
  rw [List.length_eq_zero] at hz
  have hpm : p ∈ r.filter (fun p => isMissing p.2) :=
    List.mem_filter.mpr ⟨hp, by rw [he]; rfl⟩
  rw [hz] at hpm
  simp at hpm

theorem fillCell_of_ne_none (dt : DType) (name : String) (c : Cell)
    (h : c ≠ Cell.none) : fillCell dt name c = c := by
  unfold fillCell
  by_cases hc : critical_columns.contains name = true
  · rw [if_pos hc]
  · rw [if_neg hc]
    cases dt <;> cases c <;> first | rfl | exact absurd rfl h

theorem filter_keep_of_no_missing (df : DataFrame) (hwf : df.Wf)
    (hcrit : critical_columns.all (fun c => df.colNames.contains c) = true)
    (h : missingValues df = 0) :
    df.rows.filter
      (fun r => critical_columns.all (fun c => !isMissing (rowGet r c))) =
      df.rows := by
  apply List.filter_eq_self.mpr
  intro r hr
  rw [List.all_eq_true]
  intro c hc
  have hcol : df.colNames.contains c = true := List.all_eq_true.mp hcrit c hc
  have hmem : c ∈ r.map Prod.fst := by
    rw [hwf r hr]
    exact (contains_iff_mem _ _).mp hcol
  obtain ⟨v, hv, hvm⟩ := lookup_some_of_mem_keys r c hmem
  rw [rowGet, hv]
  have hne := no_missing_rows df h r hr (c, v) hvm
  cases v <;> simp [isMissing] at hne ⊢

theorem fill_id_of_no_missing (df : DataFrame) (h : missingValues df = 0) :
    df.rows.map
      (fun r => r.map (fun p => (p.1, fillCell (dtypeOf df p.1) p.1 p.2))) =
      df.rows := by
  have hrow : ∀ r ∈ df.rows,
      r.map (fun p => (p.1, fillCell (dtypeOf df p.1) p.1 p.2)) = r := by
    intro r hr
    have h2 : ∀ p ∈ r, (p.1, fillCell (dtypeOf df p.1) p.1 p.2) = p := by
      intro p hp
      have hne := no_missing_rows df h r hr p hp
      obtain ⟨a, c⟩ := p
      rw [fillCell_of_ne_none _ _ _ hne]
    rw [List.map_congr_left h2]
    exact List.map_id r
  rw [List.map_congr_left hrow]
  exact List.map_id df.rows

theorem dedup_guard_df (d : DataFrame) :
    (if 0 < d.rows.length - (dropDupFirst d.rows).length then
      { d with rows := dropDupFirst d.rows } else d) =
    { d with rows := dropDupFirst d.rows } := by
  by_cases h : 0 < d.rows.length - (dropDupFirst d.rows).length
  · rw [if_pos h]
  · rw [if_neg h]
    have hle := (dropDupFirst_sublist d.rows).length_le
    have h0 := Nat.eq_zero_of_not_pos h
    have hge := Nat.le_of_sub_eq_zero h0
    have hd : dropDupFirst d.rows = d.rows :=
      dropDupFirst_eq_self_of_length _ (Nat.le_antisymm hle hge)
    rw [hd]

theorem clean_data_eq_of_scrut (td : Cell → Cell) (df df1 : DataFrame)
    (h : (if 0 < missingValues df then
            (dropnaSubset critical_columns df).map fillna
          else Except.ok df) = Except.ok df1) :
    clean_data td df =
      Except.ok (convertDates td { df1 with rows := dropDupFirst df1.rows }) := by
  unfold clean_data
  rw [h]
  exact congrArg (fun x => Except.ok (convertDates td x)) (dedup_guard_df df1)

/-- C7: with all four critical columns present, `clean_data` drops every
row missing a critical value, fills missing non-critical numeric values
with `0` and missing non-critical text values with `"Unknown"`, removes
exact duplicate rows (keeping first occurrences), and then parses the
date columns. -/
theorem clean_data_spec (td : Cell → Cell) (df : DataFrame) (hwf : df.Wf)
    (hcrit : critical_columns.all (fun c => df.colNames.contains c) = true) :
    clean_data td df = Except.ok (convertDates td (cleanSpecFrame df)) := by
  by_cases hm : 0 < missingValues df
  · exact clean_data_eq_of_scrut td df (filledFrame df)
      (by rw [if_pos hm]; unfold dropnaSubset; rw [if_pos hcrit]; rfl)
  · have hm0 : missingValues df = 0 := Nat.eq_zero_of_not_pos hm
    have hidf : filledFrame df = df := by
      unfold filledFrame
      rw [filter_keep_of_no_missing df hwf hcrit hm0,
        fill_id_of_no_missing df hm0]
    have h1 : (if 0 < missingValues df then
          (dropnaSubset critical_columns df).map fillna
        else Except.ok df) = Except.ok (filledFrame df) := by
      rw [if_neg hm, hidf]
    exact clean_data_eq_of_scrut td df (filledFrame df) h1

theorem clean_data_spec_witness :
    clean_data (fun c => c) cleanOkDf =
      Except.ok (convertDates (fun c => c) (cleanSpecFrame cleanOkDf)) :=
  clean_data_spec (fun c => c) cleanOkDf (by decide) (by decide)

/-- C4 (amended): `clean_data` raises exactly when the input has at
least one missing value and at least one of the four critical columns
is absent; with all critical columns present it never raises on missing
values, duplicates or unparseable dates, and with no missing values it
never raises at all (even when every critical column is absent). -/
theorem clean_data_error_iff (td : Cell → Cell) (df : DataFrame) :
    (∃ e, clean_data td df = Except.error e) ↔
      (0 < missingValues df ∧
        ¬ critical_columns.all (fun c => df.colNames.contains c) = true) := by
  unfold clean_data
  by_cases hm : 0 < missingValues df
  · rw [if_pos hm]
    by_cases hc : critical_columns.all (fun c => df.colNames.contains c) = true
    · unfold dropnaSubset
      rw [if_pos hc]
      constructor
      · rintro ⟨e, he⟩
        exact Except.noConfusion he
      · rintro ⟨_, hcc⟩
        exact absurd hc hcc
    · unfold dropnaSubset
      rw [if_neg hc]
      constructor
      · intro _
        exact ⟨hm, hc⟩
      · intro _
        exact ⟨"KeyError", rfl⟩
  · rw [if_neg hm]
    constructor
    · rintro ⟨e, he⟩
      exact Except.noConfusion he
    · rintro ⟨hmm, _⟩
      exact absurd hmm hm

/-- C4 counterexample: an input with three of the four critical columns
(`Sales` absent) and one missing non-critical value makes `clean_data`
raise `KeyError`, although the claim says it fails only when the input
has none of the critical columns at all. -/
theorem clean_data_fails_with_critical_present :
    clean_data (fun c => c) cleanFailDf = Except.error "KeyError" ∧
      cleanFailDf.colNames.contains "Order ID" = true ∧
      cleanFailDf.colNames.contains "Product ID" = true ∧
      cleanFailDf.colNames.contains "Customer ID" = true :=
  ⟨rfl, by decide, by decide, by decide⟩

/-! ## Claims about the DimensionBuilder and KeyResolver -/

theorem prepare_ok_parts (df : DataFrame) (dd : DimensionalData)
    (h : prepare_dimensional_data df = Except.ok dd) :
    dd.dim_date = dim_date_opt df ∧ dd.fact_sales = fact_sales_rows df ∧
      dim_customer_opt df = Except.ok dd.dim_customer ∧
      dim_product_opt df = Except.ok dd.dim_product := by
  unfold prepare_dimensional_data at h
  cases hc : dim_customer_opt df with
  | error e =>
    rw [hc] at h
    exact Except.noConfusion h
  | ok c =>
    rw [hc] at h
    cases hp : dim_product_opt df with
    | error e =>
      rw [hp] at h
      exact Except.noConfusion h
    | ok p =>
      rw [hp] at h
      injection h with h2
      subst h2
      refine ⟨rfl, rfl, ?_, ?_⟩
      · simp
      · simp

theorem rowGet_mkDateRow_date (d : Cell) (i : Nat) :
    rowGet (mkDateRow d i) "date" = d := rfl

theorem rowGet_mkDateRow_date_id (d : Cell) (i : Nat) :
    rowGet (mkDateRow d i) "date_id" = Cell.num ((i : ℤ) + 1) := rfl

theorem dropDupFirstAux_congr {α : Type} [DecidableEq α] (l : List α) :
    ∀ s1 s2 : List α, (∀ x, x ∈ s1 ↔ x ∈ s2) →
      dropDupFirstAux s1 l = dropDupFirstAux s2 l := by
  induction l with
  | nil => intro _ _ _; rfl
  | cons a l ih =>
    intro s1 s2 h
    by_cases ha : a ∈ s1
    · have hb : a ∈ s2 := (h a).mp ha
      simp only [dropDupFirstAux, if_pos ha, if_pos hb]
      exact ih s1 s2 h
    · have hb : a ∉ s2 := fun hx => ha ((h a).mpr hx)
      simp only [dropDupFirstAux, if_neg ha, if_neg hb]
      rw [ih (a :: s1) (a :: s2) (fun x => by simp [List.mem_cons, h x])]

theorem dropDupFirstAux_append {α : Type} [DecidableEq α] :
    ∀ (l1 l2 seen : List α),
      dropDupFirstAux seen (l1 ++ l2) =
        dropDupFirstAux seen l1 ++ dropDupFirstAux (l1 ++ seen) l2 := by
  intro l1
  induction l1 with
  | nil => intro l2 seen; simp [dropDupFirstAux]
  | cons a l1 ih =>
    intro l2 seen
    by_cases ha : a ∈ seen
    · simp only [List.cons_append, dropDupFirstAux, if_pos ha, List.append_eq]
      rw [ih l2 seen]
      congr 1
      apply dropDupFirstAux_congr
      intro x
      constructor
      · intro hx
        exact List.mem_cons_of_mem a hx
      · intro hx
        rcases List.mem_cons.mp hx with rfl | hx2
        · exact List.mem_append.mpr (Or.inr ha)
        · exact hx2
    · simp only [List.cons_append, dropDupFirstAux, if_neg ha, List.append_eq]
      rw [ih l2 (a :: seen)]
      rw [dropDupFirstAux_congr l2 (l1 ++ a :: seen) (a :: (l1 ++ seen))
        (fun x => by
          simp only [List.mem_append, List.mem_cons]
          tauto)]

theorem dropDupFirstAux_map_dedup {α β : Type} [DecidableEq α] [DecidableEq β]
    (f : α → β) :
    ∀ (A : List α) (seenV : List β) (seenRaw : List α),
      (∀ a ∈ seenRaw, f a ∈ seenV) →
      dropDupFirstAux seenV ((dropDupFirstAux seenRaw A).map f) =
        dropDupFirstAux seenV (A.map f) := by
  intro A
  induction A with
  | nil => intro _ _ _; rfl
  | cons a A ih =>
    intro seenV seenRaw H
    by_cases ha : a ∈ seenRaw
    · have hfa : f a ∈ seenV := H a ha
      rw [show dropDupFirstAux seenRaw (a :: A) = dropDupFirstAux seenRaw A
        from by simp only [dropDupFirstAux, if_pos ha]]
      rw [List.map_cons]
      rw [show dropDupFirstAux seenV (f a :: List.map f A) =
        dropDupFirstAux seenV (List.map f A)
        from by simp only [dropDupFirstAux, if_pos hfa]]
      exact ih seenV seenRaw H
    · rw [show dropDupFirstAux seenRaw (a :: A) =
        a :: dropDupFirstAux (a :: seenRaw) A
        from by simp only [dropDupFirstAux, if_neg ha]]
      rw [List.map_cons, List.map_cons]
      by_cases hfa : f a ∈ seenV
      · rw [show ∀ l : List β, dropDupFirstAux seenV (f a :: l) =
          dropDupFirstAux seenV l
          from fun l => by simp only [dropDupFirstAux, if_pos hfa]]
        rw [show ∀ l : List β, dropDupFirstAux seenV (f a :: l) =
          dropDupFirstAux seenV l
          from fun l => by simp only [dropDupFirstAux, if_pos hfa]]
        refine ih seenV (a :: seenRaw) ?_
        intro x hx
        rcases List.mem_cons.mp hx with rfl | hx
        · exact hfa
        · exact H x hx
      · rw [show ∀ l : List β, dropDupFirstAux seenV (f a :: l) =
          f a :: dropDupFirstAux (f a :: seenV) l
          from fun l => by simp only [dropDupFirstAux, if_neg hfa]]
        rw [show ∀ l : List β, dropDupFirstAux seenV (f a :: l) =
          f a :: dropDupFirstAux (f a :: seenV) l
          from fun l => by simp only [dropDupFirstAux, if_neg hfa]]
        congr 1
        refine ih (f a :: seenV) (a :: seenRaw) ?_
        intro x hx
        rcases List.mem_cons.mp hx with rfl | hx
        · exact List.mem_cons_self _ _
        · exact List.mem_cons_of_mem _ (H x hx)

theorem dedup_flatMap_dedup {ι α β : Type} [DecidableEq α] [DecidableEq β]
    (f : α → β) (g : ι → List α) :
    ∀ (is : List ι) (seen : List β),
      dropDupFirstAux seen
          (is.flatMap (fun i => (dropDupFirst (g i)).map f)) =
        dropDupFirstAux seen (is.flatMap (fun i => (g i).map f)) := by
  intro is
  induction is with
  | nil => intro _; rfl
  | cons i is ih =>
    intro seen
    rw [List.flatMap_cons, List.flatMap_cons,
      dropDupFirstAux_append, dropDupFirstAux_append]
    congr 1
    · exact dropDupFirstAux_map_dedup f (g i) seen []
        (fun x hx => absurd hx (List.not_mem_nil x))
    · rw [dropDupFirstAux_congr _ ((dropDupFirst (g i)).map f ++ seen)
        ((g i).map f ++ seen)
        (fun x => by
          simp only [List.mem_append, List.mem_map, mem_dropDupFirst])]
      exact ih ((g i).map f ++ seen)

theorem dropDupFirst_all_dates_eq (df : DataFrame) :
    dropDupFirst (all_dates df) = dropDupFirst (appearanceStream df) := by
  unfold dropDupFirst all_dates appearanceStream
  exact dedup_flatMap_dedup cellToDate
    (fun c => df.rows.map (fun r => rowGet r c)) (presentDateColumns df) []

/-- C1 (amended): the date dimension holds exactly the distinct
calendar values appearing in the present date columns, without
duplicates, and its row order is the order of first appearance in the
raw scan stream (`appearanceStream`: every order-date value in row
order, then every ship-date value in row order) — the dimension's date
column is literally the first-occurrence deduplication of that stream,
not a sort — and `date_id` is assigned as sequential integers starting
at 1 in that appearance order. -/
theorem dim_date_appearance_order (df : DataFrame) (dd : DimensionalData)
    (h : prepare_dimensional_data df = Except.ok dd)
    (hne : presentDateColumns df ≠ []) :
    ∃ rows, dd.dim_date = some rows ∧
      rows.map (fun r => rowGet r "date") =
        dropDupFirst (appearanceStream df) ∧
      (rows.map (fun r => rowGet r "date")).Nodup ∧
      (∀ c, c ∈ rows.map (fun r => rowGet r "date") ↔
        ∃ col ∈ presentDateColumns df, ∃ r0 ∈ df.rows,
          cellToDate (rowGet r0 col) = c) ∧
      rows.map (fun r => rowGet r "date_id") =
        (List.range rows.length).map (fun i : Nat => Cell.num ((i : ℤ) + 1)) := by
  obtain ⟨hdate, -, -, -⟩ := prepare_ok_parts df dd h
  have hmap : (dim_date_rows df).map (fun r => rowGet r "date") =
      dropDupFirst (all_dates df) := by
    unfold dim_date_rows
    rw [List.map_map]
    have hfun : ((fun r => rowGet r "date") ∘ fun p : Nat × Cell =>
        mkDateRow p.2 p.1) = fun p : Nat × Cell => p.2 := by
      funext p
      exact rowGet_mkDateRow_date p.2 p.1
    rw [hfun, List.enum_map_snd]
  have hlen : (dim_date_rows df).length =
      (dropDupFirst (all_dates df)).length := by
    unfold dim_date_rows
    rw [List.length_map, List.enum_length]
  have hmapid : (dim_date_rows df).map (fun r => rowGet r "date_id") =
      (List.range (dim_date_rows df).length).map
        (fun i : Nat => Cell.num ((i : ℤ) + 1)) := by
    rw [hlen]
    unfold dim_date_rows
    rw [List.map_map]
    have hfun : ((fun r => rowGet r "date_id") ∘ fun p : Nat × Cell =>
        mkDateRow p.2 p.1) = fun p : Nat × Cell => Cell.num ((p.1 : ℤ) + 1) := by
      funext p
      exact rowGet_mkDateRow_date_id p.2 p.1
    rw [hfun, ← List.enum_map_fst (dropDupFirst (all_dates df)), List.map_map]
    rfl
  refine ⟨dim_date_rows df, ?_, ?_, ?_, ?_, hmapid⟩
  · rw [hdate]
    unfold dim_date_opt
    rw [if_pos hne]
  · exact hmap.trans (dropDupFirst_all_dates_eq df)
  · rw [hmap]
    exact nodup_dropDupFirst _
  · intro c
    rw [hmap, mem_dropDupFirst]
    unfold all_dates
    rw [List.mem_flatMap]
    constructor
    · rintro ⟨col, hcol, hc⟩
      rw [List.mem_map] at hc
      obtain ⟨v, hv, rfl⟩ := hc
      rw [mem_dropDupFirst, List.mem_map] at hv
      obtain ⟨r0, hr0, rfl⟩ := hv
      exact ⟨col, hcol, r0, hr0, rfl⟩
    · rintro ⟨col, hcol, r0, hr0, rfl⟩
      refine ⟨col, hcol, ?_⟩
      rw [List.mem_map]
      exact ⟨rowGet r0 col,
        (mem_dropDupFirst _ _).mpr (List.mem_map_of_mem _ hr0), rfl⟩

theorem dim_date_appearance_order_witness :
    ∃ rows, dateExDD.dim_date = some rows ∧
      rows.map (fun r => rowGet r "date") =
        dropDupFirst (appearanceStream dateExDf) ∧
      (rows.map (fun r => rowGet r "date")).Nodup ∧
      (∀ c, c ∈ rows.map (fun r => rowGet r "date") ↔
        ∃ col ∈ presentDateColumns dateExDf, ∃ r0 ∈ dateExDf.rows,
          cellToDate (rowGet r0 col) = c) ∧
      rows.map (fun r => rowGet r "date_id") =
        (List.range rows.length).map (fun i : Nat => Cell.num ((i : ℤ) + 1)) :=
  dim_date_appearance_order dateExDf dateExDD rfl (by decide)

/-- C1 counterexample: in the two-date batch where 2024-01-06 appears
before 2024-01-05, the date dimension is not sorted ascending: the
later date 2024-01-06 receives `date_id = 1` and the earlier date
2024-01-05 receives `date_id = 2`, contradicting the claimed
sort-before-assignment. -/
theorem dim_date_not_sorted :
    prepare_dimensional_data dateSwapDf = Except.ok
      { dim_customer := Option.none, dim_product := Option.none,
        dim_date := some (dim_date_rows dateSwapDf),
        fact_sales := fact_sales_rows dateSwapDf } ∧
      dim_date_rows dateSwapDf =
        [mkDateRow (Cell.date (daysFromCivil 2024 1 6)) 0,
         mkDateRow (Cell.date (daysFromCivil 2024 1 5)) 1] ∧
      rowGet (mkDateRow (Cell.date (daysFromCivil 2024 1 6)) 0) "date_id" =
        Cell.num 1 ∧
      rowGet (mkDateRow (Cell.date (daysFromCivil 2024 1 5)) 1) "date_id" =
        Cell.num 2 ∧
      daysFromCivil 2024 1 5 < daysFromCivil 2024 1 6 := by
  refine ⟨rfl, rfl, ?_, ?_, by decide⟩
  · rw [rowGet_mkDateRow_date_id]
    norm_num
  · rw [rowGet_mkDateRow_date_id]
    norm_num

/-- C9: a date value absent from the date mapping resolves to a null
foreign key rather than an error, and when neither date column exists
in the batch the fact rows carry no `order_date_id` / `ship_date_id`
columns at all. -/
theorem prepare_null_date_keys :
    (∀ (m : List (Cell × Cell)) (d : Cell), List.lookup d m = Option.none →
      resolveDateKey m d = Cell.none)
    ∧ ∀ (df : DataFrame) (dd : DimensionalData),
        prepare_dimensional_data df = Except.ok dd →
        df.colNames.contains "Order Date" = false →
        df.colNames.contains "Ship Date" = false →
        ∀ r ∈ dd.fact_sales,
          List.lookup "order_date_id" r = Option.none ∧
          List.lookup "ship_date_id" r = Option.none := by
  constructor
  · intro m d h
    unfold resolveDateKey
    rw [h]
    rfl
  · intro df dd h ho hs r hr
    obtain ⟨-, hfact, -, -⟩ := prepare_ok_parts df dd h
    have hpres : presentDateColumns df = [] := by
      unfold presentDateColumns date_columns
      apply List.filter_eq_nil_iff.mpr
      intro a ha
      simp only [List.mem_cons, List.not_mem_nil, or_false] at ha
      rcases ha with rfl | rfl
      · intro hcon
        have hcon2 : df.colNames.contains "Order Date" = true := hcon
        rw [ho] at hcon2
        exact Bool.false_ne_true hcon2
      · intro hcon
        have hcon2 : df.colNames.contains "Ship Date" = true := hcon
        rw [hs] at hcon2
        exact Bool.false_ne_true hcon2
    have hdo : dim_date_opt df = Option.none := by
      unfold dim_date_opt
      rw [hpres]
      simp
    rw [hfact] at hr
    unfold fact_sales_rows at hr
    rw [hdo] at hr
    rw [List.mem_map] at hr
    obtain ⟨r0, hr0, rfl⟩ := hr
    have hkeys : (fact_base_row
        (fact_columns.filter (fun c => df.colNames.contains c)) r0).map
          Prod.fst =
        (fact_columns.filter (fun c => df.colNames.contains c)).map
          snakeCase := by
      unfold fact_base_row
      rw [List.map_map]
      rfl
    have hnope : ∀ x ∈ fact_columns, snakeCase x ≠ "order_date_id" ∧
        snakeCase x ≠ "ship_date_id" := by decide
    constructor
    · apply lookup_eq_none_of_not_mem_keys
      rw [hkeys]
      intro hmem
      rw [List.mem_map] at hmem
      obtain ⟨c, hc, hcs⟩ := hmem
      exact (hnope c (List.mem_filter.mp hc).1).1 hcs
    · apply lookup_eq_none_of_not_mem_keys
      rw [hkeys]
      intro hmem
      rw [List.mem_map] at hmem
      obtain ⟨c, hc, hcs⟩ := hmem
      exact (hnope c (List.mem_filter.mp hc).1).2 hcs

theorem prepare_null_date_keys_witness :
    resolveDateKey [] (Cell.date 0) = Cell.none ∧
      ∀ r ∈ salesOnlyDD.fact_sales,
        List.lookup "order_date_id" r = Option.none ∧
        List.lookup "ship_date_id" r = Option.none :=
  ⟨prepare_null_date_keys.1 [] (Cell.date 0) rfl,
    prepare_null_date_keys.2 salesOnlyDf salesOnlyDD rfl (by decide)
      (by decide)⟩

theorem renameKeys_inj_on (f : String → String) :
    ∀ (x y : Row), x.map Prod.fst = y.map Prod.fst →
      renameKeys f x = renameKeys f y → x = y := by
  intro x
  induction x with
  | nil =>
    intro y hk _
    cases y with
    | nil => rfl
    | cons q s => simp at hk
  | cons p t ih =>
    intro y hk hr
    cases y with
    | nil => simp at hk
    | cons q s =>
      obtain ⟨a, c⟩ := p
      obtain ⟨b, d⟩ := q
      simp only [List.map_cons, List.cons.injEq] at hk
      unfold renameKeys at hr
      simp only [List.map_cons, List.cons.injEq, Prod.mk.injEq] at hr
      obtain ⟨hk1, hk2⟩ := hk
      obtain ⟨⟨-, hr1⟩, hr2⟩ := hr
      subst hk1
      subst hr1
      have hts := ih s hk2 hr2
      rw [hts]

theorem dedup_proj_spec (cols : List String) (f : String → String)
    (rowsIn : List Row) :
    (((dropDupFirst (rowsIn.map
        (fun r => cols.map (fun c => (c, rowGet r c))))).map
          (renameKeys f)).Nodup)
    ∧ (∀ r0 ∈ rowsIn,
        renameKeys f (cols.map (fun c => (c, rowGet r0 c))) ∈
          (dropDupFirst (rowsIn.map
            (fun r => cols.map (fun c => (c, rowGet r c))))).map
              (renameKeys f))
    ∧ ∀ x ∈ (dropDupFirst (rowsIn.map
          (fun r => cols.map (fun c => (c, rowGet r c))))).map (renameKeys f),
        ∃ r0 ∈ rowsIn,
          x = renameKeys f (cols.map (fun c => (c, rowGet r0 c))) := by
  have hkeys : ∀ x ∈ dropDupFirst (rowsIn.map
      (fun r => cols.map (fun c => (c, rowGet r c)))),
      x.map Prod.fst = cols := by
    intro x hx
    rw [mem_dropDupFirst, List.mem_map] at hx
    obtain ⟨r0, -, rfl⟩ := hx
    rw [List.map_map]
    exact List.map_id cols
  refine ⟨?_, ?_, ?_⟩
  · refine List.Nodup.map_on ?_ (nodup_dropDupFirst _)
    intro x hx y hy hxy
    exact renameKeys_inj_on f x y ((hkeys x hx).trans (hkeys y hy).symm) hxy
  · intro r0 hr0
    exact List.mem_map_of_mem _
      ((mem_dropDupFirst _ _).mpr (List.mem_map_of_mem _ hr0))
  · intro x hx
    rw [List.mem_map] at hx
    obtain ⟨y, hy, rfl⟩ := hx
    rw [mem_dropDupFirst, List.mem_map] at hy
    obtain ⟨r0, hr0, rfl⟩ := hy
    exact ⟨r0, hr0, rfl⟩

/-- C5 (amended): the customer and product dimensions are deduplicated
on the full projected attribute tuple, so each distinct tuple
contributes exactly one dimension row; a customer (or product) id
occurring with differing non-key attribute values contributes one row
per distinct tuple, not one row per id. -/
theorem dim_customer_product_tuple_dedup (df : DataFrame)
    (dd : DimensionalData) (h : prepare_dimensional_data df = Except.ok dd) :
    (customer_dim_cols.all (fun c => df.colNames.contains c) = true →
      ∃ rows, dd.dim_customer = some rows ∧ rows.Nodup ∧
        (∀ r0 ∈ df.rows,
          renameKeys snakeCase (customer_dim_cols.map
            (fun c => (c, rowGet r0 c))) ∈ rows) ∧
        ∀ x ∈ rows, ∃ r0 ∈ df.rows,
          x = renameKeys snakeCase (customer_dim_cols.map
            (fun c => (c, rowGet r0 c))))
    ∧ (product_dim_cols.all (fun c => df.colNames.contains c) = true →
      ∃ rows, dd.dim_product = some rows ∧ rows.Nodup ∧
        (∀ r0 ∈ df.rows,
          renameKeys snakeCaseDash (product_dim_cols.map
            (fun c => (c, rowGet r0 c))) ∈ rows) ∧
        ∀ x ∈ rows, ∃ r0 ∈ df.rows,
          x = renameKeys snakeCaseDash (product_dim_cols.map
            (fun c => (c, rowGet r0 c)))) := by
  obtain ⟨-, -, hco, hpo⟩ := prepare_ok_parts df dd h
  constructor
  · intro hall
    have hmark : (["Customer ID", "Customer Name"] : List String).all
        (fun c => df.colNames.contains c) = true := by
      rw [List.all_eq_true] at hall ⊢
      intro c hc
      simp only [List.mem_cons, List.not_mem_nil, or_false] at hc
      rcases hc with rfl | rfl
      · exact hall _ (by decide)
      · exact hall _ (by decide)
    have hval : dim_customer_opt df = Except.ok (some ((dropDupFirst
        (df.rows.map (fun r => customer_dim_cols.map
          (fun c => (c, rowGet r c))))).map (renameKeys snakeCase))) := by
      unfold dim_customer_opt selectCols
      rw [hmark, hall]
      rfl
    have heq := hval.symm.trans hco
    injection heq with h2
    obtain ⟨hnd, hmem, hsur⟩ := dedup_proj_spec customer_dim_cols snakeCase
      df.rows
    exact ⟨_, h2.symm, hnd, hmem, hsur⟩
  · intro hall
    have hmark : (["Product ID", "Product Name"] : List String).all
        (fun c => df.colNames.contains c) = true := by
      rw [List.all_eq_true] at hall ⊢
      intro c hc
      simp only [List.mem_cons, List.not_mem_nil, or_false] at hc
      rcases hc with rfl | rfl
      · exact hall _ (by decide)
      · exact hall _ (by decide)
    have hval : dim_product_opt df = Except.ok (some ((dropDupFirst
        (df.rows.map (fun r => product_dim_cols.map
          (fun c => (c, rowGet r c))))).map (renameKeys snakeCaseDash))) := by
      unfold dim_product_opt selectCols
      rw [hmark, hall]
      rfl
    have heq := hval.symm.trans hpo
    injection heq with h2
    obtain ⟨hnd, hmem, hsur⟩ := dedup_proj_spec product_dim_cols snakeCaseDash
      df.rows
    exact ⟨_, h2.symm, hnd, hmem, hsur⟩

theorem dim_customer_product_tuple_dedup_witness :
    ∃ rows, custDupDD.dim_customer = some rows ∧ rows.Nodup ∧
      (∀ r0 ∈ custDupDf.rows,
        renameKeys snakeCase (customer_dim_cols.map
          (fun c => (c, rowGet r0 c))) ∈ rows) ∧
      ∀ x ∈ rows, ∃ r0 ∈ custDupDf.rows,
        x = renameKeys snakeCase (customer_dim_cols.map
          (fun c => (c, rowGet r0 c))) :=
  (dim_customer_product_tuple_dedup custDupDf custDupDD rfl).1 (by decide)

/-- C5 counterexample: `custDupDf` has a single distinct customer id,
appearing with two different cities, yet the customer dimension built
by `prepare_dimensional_data` has 2 rows — deduplication is on the full
tuple, not one row per distinct customer id. -/
theorem dim_customer_dup_attrs :
    (match prepare_dimensional_data custDupDf with
     | Except.ok dd => dd.dim_customer.map List.length
     | Except.error _ => Option.none) = some 2
    ∧ (dropDupFirst (custDupDf.rows.map
        (fun r => rowGet r "Customer ID"))).length = 1 :=
  ⟨rfl, by decide⟩

end RetailETL
